import Mathlib

/-!
# Shallow embedding of the image-analysis pipeline

This file embeds, in Lean, the core of the `mexlefirst` backend:
the third-party detector client (`ThirdPartyDetectorService`), the
conversation store (`ConversationService` and its Mongoose schema), the
realtime gateway (`ConversationGateway`), and the processing orchestrator
(`ImageProcessingService`), together with theorems about their behaviour.

Conventions of the embedding:
* Mongo `ObjectId`s for users/experiments/images are `String`s; freshly
  generated conversation and message ids are drawn from a `Nat` counter held
  in the state.
* `Date.now()` timestamps are ticks of the same counter (only their relative
  order is ever observed).
* The Mongo collections are in-memory lists; `save` on an existing document
  replaces the document with the same `_id`, and `save` on a new conversation
  appends it (the schema declares no unique index, see
  `conversationIndexes`).  Every save of an image document also appends the
  saved `processingStatus` to a write log (`statusLog`), which lets theorems
  talk about the sequence of statuses a record goes through.
* JavaScript falsiness of optional strings is modelled explicitly
  (`none` / `""` are falsy).
-/

namespace Mexle

/-- `ParticipantType` enum from `shared/enums/conversation.enum.ts`. -/
inductive ParticipantType where
  | student
  | instructor
  | admin
  | bot
deriving DecidableEq, Repr

/-- `MessageType` enum from `shared/enums/conversation.enum.ts`. -/
inductive MessageType where
  | text
  | image
  | feedback
  | system
deriving DecidableEq, Repr

/-- `ConversationStatus` enum from `shared/enums/conversation.enum.ts`. -/
inductive ConversationStatus where
  | active
  | archived
  | closed
deriving DecidableEq, Repr

/-- `UserRole` enum (`shared/enums/user.enum.ts`; the file itself is not in
the dump, but its three members `STUDENT`, `INSTRUCTOR`, `ADMIN` are the ones
used by `conversation.service.ts` and `conversation.gateway.ts`). -/
inductive UserRole where
  | student
  | instructor
  | admin
deriving DecidableEq, Repr

/-! ## Detector client (`ThirdPartyDetectorService`) -/

/-- The `position` record of a detected code in the third-party response. -/
structure Position where
  height : Int
  width : Int
  x : Int
  y : Int
deriving DecidableEq, Repr

/-- One element of `detected_codes` in the third-party response
(`ThirdPartyDetectedCode`). -/
structure ThirdPartyDetectedCode where
  data : String
  method : String
  position : Position
  type : String
deriving DecidableEq, Repr

/-- The third-party `/detect_url` 200 response (`ThirdPartyResponse`). -/
structure ThirdPartyResponse where
  count : Int
  detected_codes : List ThirdPartyDetectedCode
  image_url : String
  source_url : String
deriving DecidableEq, Repr

/-- A 2-D point of a polygon, as produced by the schema conversion. -/
structure CodePoint where
  x : Int
  y : Int
deriving DecidableEq, Repr

/-- The internal `DetectedCode` format of the detector client. -/
structure DetectedCode where
  data : String
  points : List CodePoint
  readable : Bool
  confidence : ℚ
  detectionMethod : String
  preprocessingType : String
deriving DecidableEq, Repr

/-- The `ProcessingResult` returned by
`ThirdPartyDetectorService.processImage`. -/
structure ProcessingResult where
  success : Bool
  processedImagePath : Option String := none
  detectedCodes : Option (List DetectedCode) := none
  report : Option String := none
  totalCodes : Option Nat := none
  readableCodes : Option Nat := none
  unreadableCodes : Option Nat := none
  error : Option String := none
deriving DecidableEq, Repr

/-- `ThirdPartyDetectorService.convertThirdPartyResponse`: converts each
third-party code into the internal format, turning the bounding box
`{x, y, width, height}` into the 4-point polygon
`[(x,y), (x+w,y), (x+w,y+h), (x,y+h)]`, marking every code readable with
confidence `0.9`.  A falsy (empty) `method` string falls back to
`"3rd-party"`, mirroring `code.method || '3rd-party'`. -/
def convertThirdPartyResponse (response : ThirdPartyResponse) : List DetectedCode :=
  if response.detected_codes.length = 0 then []
  else
    response.detected_codes.map fun code =>
      let x := code.position.x
      let y := code.position.y
      let width := code.position.width
      let height := code.position.height
      let points : List CodePoint :=
        [ { x := x, y := y }
        , { x := x + width, y := y }
        , { x := x + width, y := y + height }
        , { x := x, y := y + height } ]
      { data := code.data
      , points := points
      , readable := true
      , confidence := (9 : ℚ) / 10
      , detectionMethod := if code.method = "" then "3rd-party" else code.method
      , preprocessingType := "external-service" }

/-- `Math.round((readableCodes / totalCodes) * 100)` on exact rationals:
JavaScript `Math.round` rounds half-up, i.e. `⌊100·r/t + 1/2⌋`, which for
naturals is `(200·r + t) / (2·t)` with truncating division. -/
def readablePercentageOf (readableCodes totalCodes : Nat) : Nat :=
  (200 * readableCodes + totalCodes) / (2 * totalCodes)

/-- The tier-1 report text (readability percentage on or above 75). -/
def tier1Report (totalCodes readableCodes unreadableCodes pct : Nat) : String :=
  let isAre := if unreadableCodes = 1 then "is" else "are"
  s!"Bot: Found {totalCodes} components with DataMatrix codes. {readableCodes} are readable ({pct}%), but {unreadableCodes} {isAre} not clear enough. Try improving the lighting or focus for the highlighted components."

/-- The tier-2 report text (readability percentage 50 to 74). -/
def tier2Report (totalCodes readableCodes pct : Nat) : String :=
  s!"Bot: Found {totalCodes} components with DataMatrix codes. Only {readableCodes} out of {totalCodes} ({pct}%) are readable. Please try again with better lighting and make sure all components are clearly visible."

/-- The tier-3 report text (readability percentage below 50). -/
def tier3Report (totalCodes unreadableCodes : Nat) : String :=
  s!"Bot: Found {totalCodes} components, but most DataMatrix codes ({unreadableCodes} out of {totalCodes}) are not readable. Please take a new photo with better lighting, proper focus, and ensure all components are clearly visible."

/-- The report text when no codes were detected. -/
def noCodesReport : String :=
  "Bot: No DataMatrix codes detected in your image. Please ensure your components are visible and try again with better lighting and focus."

/-- The report text when every detected code is readable. -/
def allReadableReport (totalCodes : Nat) : String :=
  if totalCodes = 1 then
    "Bot: The DataMatrix code on your component is readable! Please wait for the final report..."
  else
    s!"Bot: All {totalCodes} DataMatrix codes on your components are readable! Please wait for the final report..."

/-- `ThirdPartyDetectorService.generateReport`: a report string computed from
the detected codes.  `totalCodes` is the number of codes, `readableCodes` the
number of readable ones, `unreadableCodes` their difference; the tiering is
driven by the rounded readability percentage. -/
def generateReport (codes : List DetectedCode) : String :=
  let totalCodes := codes.length
  let readableCodes := (codes.filter fun code => code.readable).length
  let unreadableCodes := totalCodes - readableCodes
  if totalCodes = 0 then
    noCodesReport
  else if unreadableCodes = 0 then
    allReadableReport totalCodes
  else
    let readablePercentage := readablePercentageOf readableCodes totalCodes
    if 75 ≤ readablePercentage then
      tier1Report totalCodes readableCodes unreadableCodes readablePercentage
    else if 50 ≤ readablePercentage then
      tier2Report totalCodes readableCodes readablePercentage
    else
      tier3Report totalCodes unreadableCodes

/-- The success value built by `ThirdPartyDetectorService.processImage` after
a 200 response `resp`: codes are converted, the report generated, counts are
derived from the converted codes, and `processedImagePath` holds the local
path of the downloaded annotated image when one was returned. -/
def processImageSuccess (resp : ThirdPartyResponse) (processedImagePath : Option String) :
    ProcessingResult :=
  let detectedCodes := convertThirdPartyResponse resp
  { success := true
  , processedImagePath := processedImagePath
  , detectedCodes := some detectedCodes
  , report := some (generateReport detectedCodes)
  , totalCodes := some detectedCodes.length
  , readableCodes := some (detectedCodes.filter fun code => code.readable).length
  , unreadableCodes := some (detectedCodes.filter fun code => !code.readable).length }

/-- The failure value built by `ThirdPartyDetectorService.processImage` when
the API call rejects (network error, timeout, non-200 status) or any other
step throws: the error never escapes, it is returned as `success := false`. -/
def processImageFailure (message : String) : ProcessingResult :=
  { success := false, error := some message }

/-! ## Conversation store (`conversation.schema.ts`, `conversation.service.ts`) -/

/-- The free-form `metadata` record attached to messages.  The fields are the
union of the keys the orchestrator and the gateway actually put into it. -/
structure MessageMetadata where
  imageId : Option String := none
  processingStatus : Option String := none
  type : Option String := none
  imageUrl : Option String := none
  totalCodes : Option Nat := none
  readableCodes : Option Nat := none
  unreadableCodes : Option Nat := none
  processedImageUrl : Option String := none
  detectedComponents : Option (List DetectedCode) := none
  error : Option String := none
  circuitUrl : Option String := none
deriving DecidableEq, Repr

/-- The embedded `Message` subdocument of a conversation. -/
structure Message where
  _id : Nat
  senderId : String
  senderType : ParticipantType
  messageType : MessageType
  content : String
  imageUrl : Option String := none
  relatedImageId : Option String := none
  isRead : Bool := false
  sentAt : Nat
  metadata : Option MessageMetadata := none
deriving DecidableEq, Repr

/-- The `Conversation` document. -/
structure Conversation where
  _id : Nat
  experimentId : String
  studentId : String
  instructorId : Option String := none
  title : String
  status : ConversationStatus := .active
  messages : List Message := []
  lastMessageAt : Nat
  lastMessageBy : String
  unreadCount : Nat := 0
deriving DecidableEq, Repr

/-- One Mongoose secondary index declaration. -/
structure SchemaIndex where
  fields : List String
  unique : Bool
deriving DecidableEq, Repr

/-- The four `ConversationSchema.index(...)` declarations at the bottom of
`conversation.schema.ts`.  None of them passes `{ unique: true }`, so none is
a uniqueness constraint. -/
def conversationIndexes : List SchemaIndex :=
  [ { fields := ["experimentId", "studentId"], unique := false }
  , { fields := ["studentId", "lastMessageAt"], unique := false }
  , { fields := ["instructorId", "lastMessageAt"], unique := false }
  , { fields := ["messages.senderId"], unique := false } ]

/-- The special sender id used by `ConversationService.sendBotMessage`. -/
def botSenderId : String := "000000000000000000000000"

/-- `SendMessageDto` from `dto/send-message.dto.ts`. -/
structure SendMessageDto where
  content : String
  messageType : Option MessageType := none
  imageUrl : Option String := none
  relatedImageId : Option String := none
  metadata : Option MessageMetadata := none
deriving DecidableEq, Repr

/-- Service-level error taxonomy: the Nest exceptions thrown by
`ConversationService` (each carries its message string). -/
inductive ServiceError where
  | notFound (message : String)
  | badRequest (message : String)
  | forbidden (message : String)
deriving DecidableEq, Repr

instance {ε α : Type} [DecidableEq ε] [DecidableEq α] : DecidableEq (Except ε α) :=
  fun x y =>
    match x, y with
    | .ok a, .ok b =>
        if h : a = b then .isTrue (by rw [h]) else .isFalse (by simp [h])
    | .error e, .error f =>
        if h : e = f then .isTrue (by rw [h]) else .isFalse (by simp [h])
    | .ok _, .error _ => .isFalse (by simp)
    | .error _, .ok _ => .isFalse (by simp)

/-- The body of `ConversationService.sendMessage` after the permission check
(lines 131-150): push a fresh unread message, advance
`lastMessageAt`/`lastMessageBy`, increment `unreadCount`. -/
def sendMessageCore (conversation : Conversation) (dto : SendMessageDto)
    (senderId : String) (senderType : ParticipantType) (freshId now : Nat) :
    Conversation :=
  let message : Message :=
    { _id := freshId
    , senderId := senderId
    , senderType := senderType
    , messageType := dto.messageType.getD .text
    , content := dto.content
    , imageUrl := dto.imageUrl
    , relatedImageId := dto.relatedImageId
    , isRead := false
    , sentAt := now
    , metadata := dto.metadata }
  { conversation with
      messages := conversation.messages ++ [message]
    , lastMessageAt := now
    , lastMessageBy := senderId
    , unreadCount := conversation.unreadCount + 1 }

/-- The body of `ConversationService.sendBotMessage` after the lookup
(lines 334-351): append a bot message (special bot sender id) and increment
`unreadCount`. -/
def sendBotMessageCore (conversation : Conversation) (content : String)
    (messageType : MessageType) (metadata : Option MessageMetadata)
    (freshId now : Nat) : Conversation :=
  let message : Message :=
    { _id := freshId
    , senderId := botSenderId
    , senderType := .bot
    , messageType := messageType
    , content := content
    , isRead := false
    , sentAt := now
    , metadata := metadata }
  { conversation with
      messages := conversation.messages ++ [message]
    , lastMessageAt := now
    , lastMessageBy := botSenderId
    , unreadCount := conversation.unreadCount + 1 }

/-- The message-flip pass of `ConversationService.markMessagesAsRead`:
every unread message not authored by `userId` becomes read. -/
def flipUnread (messages : List Message) (userId : String) : List Message :=
  messages.map fun message =>
    if !message.isRead && message.senderId != userId then
      { message with isRead := true }
    else message

/-- `ConversationService.markMessagesAsRead` on one conversation document
(lines 289-304): flip all unread messages authored by someone else; if any
was flipped, recompute `unreadCount` as the number of remaining unread
messages authored by someone else and save, otherwise save nothing. -/
def markMessagesAsRead (conversation : Conversation) (userId : String) :
    Conversation :=
  let hasUnreadMessages :=
    conversation.messages.any fun message =>
      !message.isRead && message.senderId != userId
  if hasUnreadMessages then
    let messages := flipUnread conversation.messages userId
    { conversation with
        messages := messages
      , unreadCount :=
          (messages.filter fun msg => !msg.isRead && msg.senderId != userId).length }
  else conversation

/-- The unread count the specification attributes to a viewer: the number of
messages that are unread and authored by someone other than the viewer
(this is also the exact recomputation formula of `markMessagesAsRead`). -/
def unreadForViewer (conversation : Conversation) (viewer : String) : Nat :=
  (conversation.messages.filter fun msg => !msg.isRead && msg.senderId != viewer).length

/-- `ConversationService.validateMessagePermission` (lines 354-377). -/
def validateMessagePermission (conversation : Conversation) (senderId : String)
    (senderType : ParticipantType) : Except ServiceError Unit :=
  match senderType with
  | .student =>
      if conversation.studentId = senderId then .ok ()
      else .error (.forbidden "Student can only send messages in their own conversations")
  | .instructor =>
      match conversation.instructorId with
      | some instructorId =>
          if instructorId = senderId then .ok ()
          else .error (.forbidden "Instructor can only send messages in assigned conversations")
      | none => .ok ()
  | .bot => .ok ()
  | .admin => .ok ()

/-- `ConversationService.validateViewPermission` (lines 379-395). -/
def validateViewPermission (conversation : Conversation) (userId : String)
    (userRole : UserRole) : Except ServiceError Unit :=
  if userRole = .admin then .ok ()
  else if userRole = .student ∧ conversation.studentId = userId then .ok ()
  else if userRole = .instructor ∧ conversation.instructorId = some userId then .ok ()
  else .error (.forbidden "You do not have permission to view this conversation")

/-! ## Persistent state -/

/-- The part of the `Experiment` document the conversation store reads. -/
structure Experiment where
  _id : String
  instructorId : String
deriving DecidableEq, Repr

/-- The `Image` document (`image/schemas/image.schema.ts`): a per-upload
record with `processingStatus` (a plain string column defaulting to
`"pending"`), detection results, feedback text and the annotated-image
locator. -/
structure ImageRecord where
  _id : String
  userId : String
  experimentId : String
  imageUrl : String
  originalFilename : String
  processingStatus : String := "pending"
  feedback : String := ""
  detectedComponents : List DetectedCode := []
  processedImageUrl : Option String := none
deriving DecidableEq, Repr

/-- A legacy per-user socket event emitted by `ImageProcessingGateway`
(`processing-update` / `processing-complete`). -/
structure LegacyEvent where
  kind : String
  userId : String
  imageId : String
  status : String
  message : String
deriving DecidableEq, Repr

/-- The combined persistent state the pipeline operates on: the Mongo
collections, a write log of every image-status save, the emitted legacy
events, and the fresh id / clock counter. -/
structure PipelineState where
  images : List ImageRecord := []
  experiments : List Experiment := []
  conversations : List Conversation := []
  statusLog : List (String × String) := []
  legacy : List LegacyEvent := []
  counter : Nat := 0
deriving DecidableEq, Repr

/-- `imageModel.findById`. -/
def findImage (st : PipelineState) (imageId : String) : Option ImageRecord :=
  st.images.find? fun image => image._id == imageId

/-- `experimentModel.findById`. -/
def findExperiment (st : PipelineState) (experimentId : String) : Option Experiment :=
  st.experiments.find? fun experiment => experiment._id == experimentId

/-- `image.save()`: replace the document with the same `_id` and log the
saved status. -/
def saveImage (st : PipelineState) (image : ImageRecord) : PipelineState :=
  { st with
      images := st.images.map fun i => if i._id == image._id then image else i
    , statusLog := st.statusLog ++ [(image._id, image.processingStatus)] }

/-- `conversationModel.findById`. -/
def convById (conversations : List Conversation) (conversationId : Nat) :
    Option Conversation :=
  conversations.find? fun c => c._id == conversationId

/-- The `{ experimentId, studentId }` filter used both by
`getConversationsByStudent` (with an `experimentId` filter) and by the
`findOne` existence check of `createConversation`. -/
def convsForPair (conversations : List Conversation) (experimentId studentId : String) :
    List Conversation :=
  conversations.filter fun c => c.experimentId == experimentId && c.studentId == studentId

/-- Insert into a list already sorted by `lastMessageAt` descending
(a stable insertion step; models the `sort({ lastMessageAt: -1 })` of the
store). -/
def insertByLastMessageAtDesc (c : Conversation) : List Conversation → List Conversation
  | [] => [c]
  | d :: ds =>
      if d.lastMessageAt ≤ c.lastMessageAt then c :: d :: ds
      else d :: insertByLastMessageAtDesc c ds

/-- Sort by `lastMessageAt` descending (insertion sort). -/
def sortByLastMessageAtDesc (conversations : List Conversation) : List Conversation :=
  conversations.foldr insertByLastMessageAtDesc []

/-- `getConversationsByStudent(studentId, { experimentId, page: 1, limit: 1 })`:
the pair filter sorted by `lastMessageAt` descending, first document. -/
def firstConvFor (conversations : List Conversation) (experimentId studentId : String) :
    Option Conversation :=
  (sortByLastMessageAtDesc (convsForPair conversations experimentId studentId)).head?

/-- The `findOne({ experimentId, studentId })` existence check at the top of
`ConversationService.createConversation` (lines 33-41). -/
def createConversationCheck (st : PipelineState) (experimentId studentId : String) :
    Option Conversation :=
  (convsForPair st.conversations experimentId studentId).head?

/-- The construction-and-save tail of `ConversationService.createConversation`
(lines 43-69): build the conversation (standard title, instructor derived
from the experiment), seed the optional initial student message, and save.
The save appends unconditionally: the schema has no unique index on the
`(experimentId, studentId)` pair (`conversationIndexes`), so the store never
rejects a second conversation for the same pair. -/
def createConversationInsert (st : PipelineState) (experimentId studentId instructorId : String)
    (initialMessage : Option String) : PipelineState × Conversation :=
  let conversation : Conversation :=
    { _id := st.counter
    , experimentId := experimentId
    , studentId := studentId
    , instructorId := some instructorId
    , title := "Image Processing Discussion"
    , messages := []
    , lastMessageAt := st.counter
    , lastMessageBy := studentId
    , unreadCount := 0 }
  let conversation :=
    match initialMessage with
    | some content =>
        { conversation with
            messages :=
              [ { _id := st.counter + 1
                , senderId := studentId
                , senderType := .student
                , messageType := .text
                , content := content
                , isRead := false
                , sentAt := st.counter + 1 } ]
          , unreadCount := 1 }
    | none => conversation
  ({ st with
      conversations := st.conversations ++ [conversation]
    , counter := st.counter + 2 }, conversation)

/-- `ConversationService.createConversation` (lines 20-71): fetch the
experiment (NotFound when missing), run the existence check (BadRequest when
a conversation for the pair already exists), then insert. -/
def createConversation (st : PipelineState) (experimentId : String)
    (initialMessage : Option String) (creatorId : String) :
    Except ServiceError (PipelineState × Conversation) :=
  match findExperiment st experimentId with
  | none => .error (.notFound "Experiment not found")
  | some experiment =>
      match createConversationCheck st experimentId creatorId with
      | some _ =>
          .error (.badRequest "Conversation already exists for this experiment and student")
      | none =>
          .ok (createConversationInsert st experimentId creatorId
                experiment.instructorId initialMessage)

/-- `ImageProcessingService.findOrCreateConversation` (the orchestrator
helper): list the student's conversations for the experiment (limit 1) and
return the first; otherwise create one through
`ConversationService.createConversation` with the fixed initial message.
The `title` argument is accepted but, as in the source, never used. -/
def findOrCreateConversation (st : PipelineState) (experimentId studentId : String)
    (title : String) : PipelineState × Except ServiceError Conversation :=
  match firstConvFor st.conversations experimentId studentId with
  | some conversation => (st, .ok conversation)
  | none =>
      match createConversation st experimentId (some "Image submitted for analysis") studentId with
      | .error e => (st, .error e)
      | .ok (st', conversation) => (st', .ok conversation)

/-- `ConversationService.sendBotMessage` at store level (lines 323-352):
look the conversation up, append the bot message, save. -/
def sendBotMessageService (st : PipelineState) (conversationId : Nat)
    (content : String) (messageType : MessageType)
    (metadata : Option MessageMetadata) : Except ServiceError PipelineState :=
  match convById st.conversations conversationId with
  | none => .error (.notFound "Conversation not found")
  | some conversation =>
      let updated := sendBotMessageCore conversation content messageType metadata
        st.counter st.counter
      .ok { st with
              conversations := st.conversations.map fun c =>
                if c._id == conversationId then updated else c
            , counter := st.counter + 1 }

/-- `ConversationGateway.sendBotMessage`: persists through the service and
fans out; any error is caught and logged inside the gateway, so the caller
never observes it. -/
def sendBotMessageGW (st : PipelineState) (conversationId : Nat) (content : String)
    (messageType : MessageType) (metadata : Option MessageMetadata) : PipelineState :=
  match sendBotMessageService st conversationId content messageType metadata with
  | .ok st' => st'
  | .error _ => st

/-- `ImageProcessingGateway.sendProcessingUpdate`: emit a legacy
`processing-update` event to the user's personal room. -/
def sendProcessingUpdate (st : PipelineState) (userId imageId status message : String) :
    PipelineState :=
  { st with legacy := st.legacy ++
      [{ kind := "processing-update", userId := userId, imageId := imageId
       , status := status, message := message }] }

/-- `ImageProcessingGateway.sendProcessingComplete`: emit a legacy
`processing-complete` event to the user's personal room. -/
def sendProcessingComplete (st : PipelineState) (userId imageId status message : String) :
    PipelineState :=
  { st with legacy := st.legacy ++
      [{ kind := "processing-complete", userId := userId, imageId := imageId
       , status := status, message := message }] }

/-! ## JavaScript value coercions used by the orchestrator -/

/-- JS string interpolation of a possibly-`undefined` number. -/
def jsShowNat : Option Nat → String
  | some n => toString n
  | none => "undefined"

/-- JS string interpolation of a possibly-`undefined` string. -/
def jsShowStr : Option String → String
  | some s => s
  | none => "undefined"

/-- JS `s || fallback` on a plain string: the empty string is falsy. -/
def jsOrStr (s fallback : String) : String :=
  if s == "" then fallback else s

/-- JS truthiness of a possibly-`undefined` string. -/
def jsTruthyStr : Option String → Bool
  | some s => !(s == "")
  | none => false

/-- JS `x > 0` where `x` may be `undefined` (`undefined > 0` is `false`). -/
def jsGtZero : Option Nat → Bool
  | some n => decide (0 < n)
  | none => false

/-- The message string of a thrown service exception (`error.message`). -/
def ServiceError.message : ServiceError → String
  | .notFound m => m
  | .badRequest m => m
  | .forbidden m => m

/-! ## Processing orchestrator (`image-processing.service.ts`) -/

/-- The Falstad circuit-simulator link pushed after every successful run. -/
def circuitSimUrl : String :=
  "https://www.falstad.com/circuit/circuitjs.html?cct=%24+1+0.000005+10.20027730826997+50+5+43%0Av+128+64+128+160+0+12+0+0+0+0.5%0As+128+160+256+160+0+1+true%0Ar+256+160+256+256+0+470%0A162+256+256+128+256+2+default-led+1+0+0+0.01%0Ag+128+256+128+256+0%0Aw+128+64+256+64+0%0Aw+256+64+256+160+0%0Aw+128+256+256+256+0"

/-- The initial `system` message pushed when a run starts. -/
def startedMessage (originalFilename : String) : String :=
  let name := jsOrStr originalFilename "uploaded image"
  s!"🔄 Starting analysis of your submitted image: {name}"

/-- `ImageProcessingService.createFeedbackMessage`: counts, per-code
readability and the full report. -/
def createFeedbackMessage (result : ProcessingResult) : String :=
  let status := if result.unreadableCodes == some 0 then "✅" else "⚠️"
  let statusText :=
    if result.unreadableCodes == some 0 then "Analysis Complete"
    else "Analysis Complete - Issues Found"
  let totalCodes := jsShowNat result.totalCodes
  let readableCodes := jsShowNat result.readableCodes
  let unreadableCodes := jsShowNat result.unreadableCodes
  let message := s!"{status} **{statusText}**\n\n"
  let message := message ++ "📊 **Analysis Results:**\n"
  let message := message ++ s!"• Total Matrix codes detected: {totalCodes}\n"
  let message := message ++ s!"• Readable codes: {readableCodes}\n"
  let message := message ++ s!"• Unreadable codes: {unreadableCodes}\n\n"
  let message :=
    match result.detectedCodes with
    | some codes =>
        if 0 < codes.length then
          let listing := (codes.enum.map fun (pair : Nat × DetectedCode) =>
            let idx := pair.1 + 1
            let statusIcon := if pair.2.readable then "✅" else "❌"
            let dataText := jsOrStr pair.2.data "Unreadable"
            s!"{idx}. {statusIcon} {dataText}\n").foldl
              (fun acc line => acc ++ line) ""
          message ++ "🔍 **Detected Components:**\n" ++ listing ++ "\n"
        else message
    | none => message
  if jsTruthyStr result.report then
    message ++ "📝 **Detailed Report:**\n" ++ jsShowStr result.report
  else message

/-- `ImageProcessingService.createGuidanceMessage`: concrete tips pushed when
some codes are unreadable. -/
def createGuidanceMessage (result : ProcessingResult) : String :=
  let message := "💡 **Improvement Suggestions**\n\n"
  let message := message ++ s!"I detected {jsShowNat result.unreadableCodes} unreadable Matrix codes. Here are some tips to improve your image quality:\n\n"
  let message := message ++ "• Ensure good lighting conditions\n"
  let message := message ++ "• Hold the camera steady to avoid blur\n"
  let message := message ++ "• Make sure Matrix codes are clearly visible and not obstructed\n"
  let message := message ++ "• Try to capture the image from directly above\n"
  let message := message ++ "• Ensure the entire experimental setup is visible\n\n"
  message ++ "Feel free to resubmit your image or ask your instructor for help! 🤝"

/-- `ImageProcessingService.createCircuitMessage`: the final `system` message
with the companion circuit-simulator link. -/
def createCircuitMessage : String :=
  let message := "🔌 **Circuit Simulation**\n\n"
  let message := message ++ "Based on your circuit analysis, you can now explore and simulate your circuit design using our interactive circuit simulator.\n\n"
  let message := message ++ "Click the link below to open the circuit simulation:\n\n"
  let message := message ++ s!"🔗 [Open Circuit Simulator]({circuitSimUrl})\n\n"
  let message := message ++ "💡 **What you can do:**\n"
  let message := message ++ "• Modify component values and see real-time effects\n"
  let message := message ++ "• Run simulations to understand circuit behavior\n"
  let message := message ++ "• Experiment with different configurations\n"
  let message := message ++ "• Learn how your physical circuit translates to digital simulation\n\n"
  message ++ "Happy experimenting! 🧪⚡"

/-- The `system` error message pushed when the detector reports failure. -/
def processingFailedMessage (error : Option String) : String :=
  s!"❌ **Processing Failed**\n\nI encountered an error while analyzing your image:\n\n{jsShowStr error}\n\nPlease try uploading the image again or contact your instructor for assistance."

/-- The `system` error message pushed by the top-level exception handler. -/
def unexpectedErrorMessage (errorMessage : String) : String :=
  s!"❌ **Unexpected Error**\n\nAn unexpected error occurred while processing your image. Please try again or contact your instructor.\n\nError details: {errorMessage}"

/-- The environment a single orchestrator run executes in: the outcome the
detector client produces for this run, and whether the
`fs.mkdir`/`fs.access` preparation of the processed directory throws. -/
structure PipelineEnv where
  detectorResult : ProcessingResult
  mkdirFails : Bool := false
deriving DecidableEq, Repr

/-- The `try`-block body of `ImageProcessingService.processUploadedImage`
(lines 30-204).  Returns the state reached together with `none` when the body
ran to completion, or `some errorMessage` when an exception was raised (the
state then reflects every side effect performed before the throw).  Awaited
store operations are total in this embedding; the fallible steps are the
conversation resolution (the experiment may be missing) and the
processed-directory preparation. -/
def processBody (env : PipelineEnv) (imageId : String) (st : PipelineState) :
    PipelineState × Option String :=
  match findImage st imageId with
  | none => (st, none)
  | some image =>
      let image := { image with processingStatus := "processing" }
      let st := saveImage st image
      let userId := image.userId
      let experimentId := image.experimentId
      match findOrCreateConversation st experimentId userId
          (jsOrStr image.originalFilename "Image Processing") with
      | (st, .error e) => (st, some e.message)
      | (st, .ok conversation) =>
          let st := sendBotMessageGW st conversation._id
            (startedMessage image.originalFilename) .system
            (some { imageId := some imageId, processingStatus := some "started"
                  , imageUrl := some image.imageUrl })
          let st := sendProcessingUpdate st userId imageId "processing"
            "Bot: Starting Matrix code analysis using 3rd party service..."
          if env.mkdirFails then (st, some "mkdir failed")
          else
            let result := env.detectorResult
            if result.success then
              let image := { image with
                  detectedComponents := result.detectedCodes.getD []
                , feedback := result.report.getD ""
                , processingStatus :=
                    if result.unreadableCodes == some 0 then "completed" else "needs_review"
                , processedImageUrl :=
                    if jsTruthyStr result.processedImagePath then result.processedImagePath
                    else image.processedImageUrl }
              let st := saveImage st image
              let st := sendBotMessageGW st conversation._id
                (createFeedbackMessage result) .feedback
                (some { imageId := some imageId
                      , processingStatus := some image.processingStatus
                      , totalCodes := result.totalCodes
                      , readableCodes := result.readableCodes
                      , unreadableCodes := result.unreadableCodes
                      , processedImageUrl := result.processedImagePath
                      , detectedComponents := result.detectedCodes })
              let st :=
                if jsGtZero result.unreadableCodes then
                  sendBotMessageGW st conversation._id
                    (createGuidanceMessage result) .system
                    (some { imageId := some imageId, type := some "guidance"
                          , unreadableCodes := result.unreadableCodes })
                else st
              let st := sendBotMessageGW st conversation._id
                createCircuitMessage .system
                (some { imageId := some imageId, type := some "circuit_link"
                      , circuitUrl := some circuitSimUrl })
              let st := sendProcessingComplete st userId imageId
                image.processingStatus (jsShowStr result.report)
              (st, none)
            else
              let image := { image with
                  processingStatus := "failed"
                , feedback := "Processing failed - " ++ jsShowStr result.error }
              let st := saveImage st image
              let st := sendBotMessageGW st conversation._id
                (processingFailedMessage result.error) .system
                (some { imageId := some imageId, processingStatus := some "failed"
                      , error := result.error })
              let st := sendProcessingComplete st userId imageId "failed" image.feedback
              (st, none)

/-- The `catch` handler of `ImageProcessingService.processUploadedImage`
(lines 205-251): re-load the record, force `failed` with a generic note, save,
then attempt the conversation error push and legacy notification; any
exception inside the handler is swallowed (the status write comes first, so
it survives a failing push). -/
def catchErrorHandler (imageId errorMessage : String) (st : PipelineState) :
    PipelineState :=
  match findImage st imageId with
  | none => st
  | some image =>
      let image := { image with
          processingStatus := "failed"
        , feedback := "An unexpected error occurred during processing." }
      let st := saveImage st image
      match findOrCreateConversation st image.experimentId image.userId
          "Image Processing Error" with
      | (st, .error _) => st
      | (st, .ok conversation) =>
          let st := sendBotMessageGW st conversation._id
            (unexpectedErrorMessage errorMessage) .system
            (some { imageId := some imageId, processingStatus := some "failed"
                  , error := some errorMessage })
          sendProcessingComplete st image.userId imageId "failed" image.feedback

/-- `ImageProcessingService.processUploadedImage`: the try body, with any
raised exception routed to the catch handler. -/
def processUploadedImage (env : PipelineEnv) (imageId : String) (st : PipelineState) :
    PipelineState :=
  match processBody env imageId st with
  | (st', none) => st'
  | (st', some errorMessage) => catchErrorHandler imageId errorMessage st'

/-- `ImageProcessingService.reprocessImage`: a retry simply re-runs
`processUploadedImage`, restarting the record at `processing`. -/
def reprocessImage (env : PipelineEnv) (imageId : String) (st : PipelineState) :
    PipelineState :=
  processUploadedImage env imageId st

/-- `ImageService.addFeedback` (lines 384-406): instructor feedback sets the
feedback text and unconditionally moves `processingStatus` to `"accepted"`. -/
def addFeedback (st : PipelineState) (fileId feedback : String) :
    Except ServiceError PipelineState :=
  match findImage st fileId with
  | none => .error (.badRequest "File not found")
  | some image =>
      .ok (saveImage st { image with feedback := feedback, processingStatus := "accepted" })

/-- `ImageProcessingService.getProcessingStatus`: a pure read of the record's
status and results. -/
def getProcessingStatus (st : PipelineState) (imageId : String) :
    Option (String × String × List DetectedCode) :=
  (findImage st imageId).map fun image =>
    (image.processingStatus, image.feedback, image.detectedComponents)

/-! ## Realtime gateway (`conversation.gateway.ts`) -/

/-- The authenticated identity attached to a socket after the handshake. -/
structure GatewayUser where
  id : String
  email : String
  role : UserRole
deriving DecidableEq, Repr

/-- A connected client: its authenticated user (if any), the rooms it has
joined and the events emitted back to it. -/
structure GatewayClient where
  user : Option GatewayUser := none
  rooms : List String := []
  emitted : List (String × String) := []
deriving DecidableEq, Repr

/-- `ConversationService.getConversationById` (lines 264-280): look the
conversation up and re-validate the view permission; a pure read. -/
def getConversationById (conversations : List Conversation) (conversationId : Nat)
    (userId : String) (userRole : UserRole) : Except ServiceError Conversation :=
  match convById conversations conversationId with
  | none => .error (.notFound "Conversation not found")
  | some conversation =>
      match validateViewPermission conversation userId userRole with
      | .error e => .error e
      | .ok _ => .ok conversation

/-- `ConversationGateway.handleJoinConversation` (lines 108-141): the server
re-validates the permission rule before joining; on any error the client gets
an `error` event, joins no room, and the store is untouched. -/
def handleJoinConversation (conversations : List Conversation) (conversationId : Nat)
    (client : GatewayClient) : List Conversation × GatewayClient :=
  match client.user with
  | none =>
      (conversations,
        { client with emitted := client.emitted ++ [("error", "User not authenticated")] })
  | some user =>
      match getConversationById conversations conversationId user.id user.role with
      | .error e =>
          (conversations,
            { client with emitted := client.emitted ++ [("error", e.message)] })
      | .ok _ =>
          (conversations,
            { client with
                rooms := client.rooms ++ [s!"conversation:{conversationId}"]
              , emitted := client.emitted ++
                  [("joined-conversation", "Successfully joined conversation")] })

/-! ## Message classifiers used by the theorems -/

/-- A `feedback`-type message. -/
def isFeedbackMessage (m : Message) : Bool :=
  m.messageType == .feedback

/-- The guidance message: its metadata is tagged `type: 'guidance'`. -/
def isGuidanceMessage (m : Message) : Bool :=
  (m.metadata.map fun md => md.type == some "guidance").getD false

/-- The companion-link message: its metadata is tagged `type: 'circuit_link'`. -/
def isCircuitMessage (m : Message) : Bool :=
  (m.metadata.map fun md => md.type == some "circuit_link").getD false

/-- An error push: a `system` message whose metadata records
`processingStatus: 'failed'` (the "started" `system` message carries
`processingStatus: 'started'` instead). -/
def isErrorMessage (m : Message) : Bool :=
  m.messageType == .system &&
    (m.metadata.map fun md => md.processingStatus == some "failed").getD false

/-! ## Concrete fixtures used by witnesses and counterexamples -/

/-- A list of `readable` detected codes followed by `unreadable` unreadable
ones, for exercising `generateReport` at chosen counts. -/
def mkCodes (readable unreadable : Nat) : List DetectedCode :=
  (List.replicate readable
    { data := "ok", points := [], readable := true, confidence := (9 : ℚ)/10
    , detectionMethod := "datamatrix", preprocessingType := "external-service" }) ++
  (List.replicate unreadable
    { data := "", points := [], readable := false, confidence := 0
    , detectionMethod := "datamatrix", preprocessingType := "external-service" })

/-- A fixture image record owned by student `stu1` in experiment `exp1`. -/
def exImage : ImageRecord :=
  { _id := "img1", userId := "stu1", experimentId := "exp1"
  , imageUrl := "uploads/img.jpg", originalFilename := "img.jpg" }

/-- A fixture conversation between `stu1` and `ins1` about `exp1`. -/
def exConv : Conversation :=
  { _id := 7, experimentId := "exp1", studentId := "stu1", instructorId := some "ins1"
  , title := "Image Processing Discussion", lastMessageAt := 0, lastMessageBy := "stu1" }

/-- A fixture store holding the image, its experiment and the conversation. -/
def exState : PipelineState :=
  { images := [exImage]
  , experiments := [{ _id := "exp1", instructorId := "ins1" }]
  , conversations := [exConv], counter := 100 }

/-- A two-code detector response (both convert to readable codes). -/
def respTwoCodes : ThirdPartyResponse :=
  { count := 2
  , detected_codes :=
      [ { data := "R1", method := "datamatrix"
        , position := { height := 26, width := 34, x := 607, y := 145 }, type := "code" }
      , { data := "C1", method := "datamatrix"
        , position := { height := 10, width := 10, x := 0, y := 0 }, type := "code" } ]
  , image_url := "/processed/a.jpg", source_url := "src" }

/-- A store with the experiment present but no conversation yet, from which
two interleaved get-or-create calls race. -/
def raceStore : PipelineState :=
  { experiments := [{ _id := "exp1", instructorId := "ins1" }], counter := 0 }

/-- First insert of the race: transaction 1 performed its existence check on
`raceStore` and now saves. -/
def raceStep1 : PipelineState × Conversation :=
  createConversationInsert raceStore "exp1" "stu1" "ins1" (some "Image submitted for analysis")

/-- Second insert of the race: transaction 2 also performed its existence
check on `raceStore` (before transaction 1 saved), and now saves in turn —
nothing in the store stops it, as the pair index is not unique. -/
def raceStep2 : PipelineState × Conversation :=
  createConversationInsert raceStep1.1 "exp1" "stu1" "ins1" (some "Image submitted for analysis")

/-- A conversation holding one unread instructor message, for exercising
`markMessagesAsRead`. -/
def convWithUnread : Conversation :=
  { exConv with
      messages :=
        [ { _id := 1, senderId := "ins1", senderType := .instructor
          , messageType := .text, content := "please retake the photo", sentAt := 1 } ]
    , unreadCount := 1 }

/-- A gateway client authenticated as a different student, `stu2`. -/
def otherStudentClient : GatewayClient :=
  { user := some { id := "stu2", email := "stu2@mexle.org", role := .student } }

/-- Scenario A environment: the detector succeeds with two codes and an
annotated image. -/
def envSuccess : PipelineEnv :=
  { detectorResult := processImageSuccess respTwoCodes (some "uploads/processed/a.jpg") }

/-- Scenario B environment: the detector call fails (connection refused). -/
def envFail : PipelineEnv :=
  { detectorResult := processImageFailure "connect ECONNREFUSED 172.17.0.1:5001" }

/-- An environment whose run raises an unanticipated exception while
preparing the processed directory. -/
def envCrash : PipelineEnv :=
  { detectorResult := processImageFailure "never reached", mkdirFails := true }

/-! ## List-level store lemmas -/

theorem find?_map_if {α : Type} (p : α → Bool) (b : α) (l : List α) (a : α)
    (h : l.find? p = some a) (hb : p b = true) :
    (l.map fun x => if p x then b else x).find? p = some b := by
  induction l with
  | nil => simp at h
  | cons x xs ih =>
      cases hx : p x with
      | true => simp [List.find?_cons, hx, hb]
      | false =>
          rw [List.find?_cons_of_neg _ (by simp [hx])] at h
          simpa [List.find?_cons, hx] using ih h

theorem findImage_congr (st st' : PipelineState) (imageId : String)
    (h : st.images = st'.images) : findImage st imageId = findImage st' imageId := by
  unfold findImage
  rw [h]

theorem findImage_saveImage_self (st : PipelineState) (imageId : String)
    (image0 image' : ImageRecord) (h : findImage st imageId = some image0)
    (hid : image'._id = image0._id) :
    findImage (saveImage st image') imageId = some image' := by
  unfold findImage at h
  have hids : image0._id = imageId := by simpa using List.find?_some h
  unfold findImage saveImage
  simp only [hid, hids]
  exact find?_map_if (fun i => i._id == imageId) image' st.images image0 h
    (by simp [hid, hids])

theorem images_sendBotMessageGW (st : PipelineState) (cid : Nat) (content : String)
    (mt : MessageType) (md : Option MessageMetadata) :
    (sendBotMessageGW st cid content mt md).images = st.images := by
  unfold sendBotMessageGW sendBotMessageService
  cases h : convById st.conversations cid <;> simp

theorem statusLog_sendBotMessageGW (st : PipelineState) (cid : Nat) (content : String)
    (mt : MessageType) (md : Option MessageMetadata) :
    (sendBotMessageGW st cid content mt md).statusLog = st.statusLog := by
  unfold sendBotMessageGW sendBotMessageService
  cases h : convById st.conversations cid <;> simp

theorem convById_sendBotMessageGW (st : PipelineState) (cid : Nat)
    (c : Conversation) (content : String) (mt : MessageType) (md : Option MessageMetadata)
    (h : convById st.conversations cid = some c) :
    convById (sendBotMessageGW st cid content mt md).conversations cid =
      some (sendBotMessageCore c content mt md st.counter st.counter) := by
  have hfind : st.conversations.find? (fun x => x._id == cid) = some c := h
  have hcid : c._id = cid := by simpa using List.find?_some hfind
  unfold sendBotMessageGW sendBotMessageService
  rw [h]
  refine find?_map_if (fun x => x._id == cid) _ st.conversations c hfind ?_
  simp [sendBotMessageCore, hcid]

theorem images_findOrCreateConversation (st : PipelineState) (e s t : String) :
    (findOrCreateConversation st e s t).1.images = st.images := by
  unfold findOrCreateConversation createConversation
  cases h1 : firstConvFor st.conversations e s
  · cases h2 : findExperiment st e
    · rfl
    · cases h3 : createConversationCheck st e s <;> rfl
  · rfl

theorem statusLog_findOrCreateConversation (st : PipelineState) (e s t : String) :
    (findOrCreateConversation st e s t).1.statusLog = st.statusLog := by
  unfold findOrCreateConversation createConversation
  cases h1 : firstConvFor st.conversations e s
  · cases h2 : findExperiment st e
    · rfl
    · cases h3 : createConversationCheck st e s <;> rfl
  · rfl

theorem length_insertByLastMessageAtDesc (c : Conversation) (l : List Conversation) :
    (insertByLastMessageAtDesc c l).length = l.length + 1 := by
  induction l with
  | nil => rfl
  | cons d ds ih =>
      unfold insertByLastMessageAtDesc
      by_cases h : d.lastMessageAt ≤ c.lastMessageAt
      · rw [if_pos h]
        rfl
      · rw [if_neg h]
        simp [ih]

theorem length_sortByLastMessageAtDesc (l : List Conversation) :
    (sortByLastMessageAtDesc l).length = l.length := by
  induction l with
  | nil => rfl
  | cons d ds ih =>
      unfold sortByLastMessageAtDesc at ih ⊢
      simp [List.foldr_cons, length_insertByLastMessageAtDesc, ih]

theorem firstConvFor_eq_none (l : List Conversation) (e s : String) :
    firstConvFor l e s = none ↔ convsForPair l e s = [] := by
  unfold firstConvFor
  rw [List.head?_eq_none_iff]
  constructor
  · intro h
    have hlen : (convsForPair l e s).length = 0 := by
      rw [← length_sortByLastMessageAtDesc (convsForPair l e s), h]
      rfl
    exact List.length_eq_zero.mp hlen
  · intro h
    rw [h]
    rfl

/-- The flip pass of `markMessagesAsRead` leaves no unread message authored
by someone other than the viewer. -/
theorem filter_flipUnread (msgs : List Message) (viewer : String) :
    (flipUnread msgs viewer).filter
      (fun msg => !msg.isRead && msg.senderId != viewer) = [] := by
  rw [List.filter_eq_nil_iff]
  intro m hm
  rw [flipUnread, List.mem_map] at hm
  obtain ⟨m0, hm0, rfl⟩ := hm
  cases h0 : (!m0.isRead && m0.senderId != viewer) <;> simp [h0]

/-- C9: every detector bounding box `{x, y, width, height}` converts to
exactly the 4-point polygon `[(x,y), (x+w,y), (x+w,y+h), (x,y+h)]`; in
particular `{x:607, y:145, width:34, height:26}` maps to
`[(607,145), (641,145), (641,171), (607,171)]`. -/
theorem boundingBox_polygon_conversion :
    (∀ response : ThirdPartyResponse,
      (convertThirdPartyResponse response).map (fun code => code.points) =
        response.detected_codes.map (fun code =>
          [ { x := code.position.x, y := code.position.y }
          , { x := code.position.x + code.position.width, y := code.position.y }
          , { x := code.position.x + code.position.width
            , y := code.position.y + code.position.height }
          , { x := code.position.x
            , y := code.position.y + code.position.height } ])) ∧
    (convertThirdPartyResponse
      { count := 1
      , detected_codes :=
          [ { data := "R1", method := "datamatrix"
            , position := { height := 26, width := 34, x := 607, y := 145 }
            , type := "code" } ]
      , image_url := "", source_url := "" }).map (fun code => code.points) =
      [[ { x := 607, y := 145 }, { x := 641, y := 145 }
       , { x := 641, y := 171 }, { x := 607, y := 171 } ]] := by
  constructor
  · intro response
    unfold convertThirdPartyResponse
    by_cases h : response.detected_codes.length = 0
    · rw [if_pos h, List.length_eq_zero.mp h]
      rfl
    · rw [if_neg h, List.map_map]
      rfl
  · rfl

set_option maxRecDepth 4000 in
/-- C5 counterexample: the source tiers by the rounded percentage
`Math.round(100·readable/total)`, not by the exact ratio.  At 51 codes with
38 readable the ratio `38/51` lies strictly inside `[0.50, 0.75)`, so the
claim requires the tier-2 message, but the rounded percentage is 75 and the
code produces the tier-1 message. -/
theorem report_ratio_boundary_cex :
    ((1 : ℚ)/2 ≤ 38/51 ∧ (38 : ℚ)/51 < 3/4) ∧
    readablePercentageOf 38 51 = 75 ∧
    generateReport (mkCodes 38 13) = tier1Report 51 38 13 75 ∧
    tier1Report 51 38 13 75 ≠ tier2Report 51 38 75 := by
  refine ⟨⟨by norm_num, by norm_num⟩, by decide, by rfl, ?_⟩
  intro h
  exact absurd (congrArg (fun s => s.take 60) h) (by decide)

/-- C5 (amended): `generateReport` is a pure function of the
(total, readable, unreadable) counts: 0 codes give the "no codes" message,
0 unreadable gives the "all readable" message, and otherwise the tier is
chosen by the rounded percentage `p = Math.round(100·readable/total)`:
`p ≥ 75` tier-1, `50 ≤ p < 75` tier-2, `p < 50` tier-3.  The three concrete
examples of the specification hold: (total 4, readable 3) produces the
tier-1 message noting "1 is not clear enough"; (total 2, readable 2) the
"all readable" message; total 0 the "no codes detected" message. -/
theorem generateReport_tiers :
    (∀ codes : List DetectedCode,
      (codes.length = 0 → generateReport codes = noCodesReport) ∧
      (codes.length ≠ 0 →
        codes.length - (codes.filter fun c => c.readable).length = 0 →
        generateReport codes = allReadableReport codes.length) ∧
      (codes.length ≠ 0 →
        codes.length - (codes.filter fun c => c.readable).length ≠ 0 →
        ((75 ≤ readablePercentageOf (codes.filter fun c => c.readable).length codes.length →
            generateReport codes =
              tier1Report codes.length (codes.filter fun c => c.readable).length
                (codes.length - (codes.filter fun c => c.readable).length)
                (readablePercentageOf (codes.filter fun c => c.readable).length codes.length)) ∧
         (50 ≤ readablePercentageOf (codes.filter fun c => c.readable).length codes.length →
          readablePercentageOf (codes.filter fun c => c.readable).length codes.length < 75 →
            generateReport codes =
              tier2Report codes.length (codes.filter fun c => c.readable).length
                (readablePercentageOf (codes.filter fun c => c.readable).length codes.length)) ∧
         (readablePercentageOf (codes.filter fun c => c.readable).length codes.length < 50 →
            generateReport codes =
              tier3Report codes.length
                (codes.length - (codes.filter fun c => c.readable).length))))) ∧
    generateReport (mkCodes 3 1) =
      "Bot: Found 4 components with DataMatrix codes. 3 are readable (75%), but 1 is not clear enough. Try improving the lighting or focus for the highlighted components." ∧
    generateReport (mkCodes 2 0) =
      "Bot: All 2 DataMatrix codes on your components are readable! Please wait for the final report..." ∧
    generateReport [] =
      "Bot: No DataMatrix codes detected in your image. Please ensure your components are visible and try again with better lighting and focus." := by
  refine ⟨?_, by rfl, by rfl, by rfl⟩
  intro codes
  refine ⟨?_, ?_, ?_⟩
  · intro h
    simp [generateReport, h]
  · intro h1 h2
    simp only [generateReport]
    rw [if_neg h1, if_pos h2]
  · intro h1 h2
    refine ⟨?_, ?_, ?_⟩
    · intro h3
      simp only [generateReport]
      rw [if_neg h1, if_neg h2, if_pos h3]
    · intro h3 h4
      simp only [generateReport]
      rw [if_neg h1, if_neg h2, if_neg (by omega), if_pos h3]
    · intro h3
      simp only [generateReport]
      rw [if_neg h1, if_neg h2, if_neg (by omega), if_neg (by omega)]

/-- C5 witness: at 2 codes with 1 readable the rounded percentage is 50 and
the tier-2 message is produced. -/
theorem generateReport_tiers_witness :
    (mkCodes 1 1).length ≠ 0 ∧
    generateReport (mkCodes 1 1) = tier2Report 2 1 50 := by
  refine ⟨by decide, ?_⟩
  exact ((generateReport_tiers.1 (mkCodes 1 1)).2.2 (by decide) (by decide)).2.1
    (by decide) (by decide)

/-- C3 counterexample: a legal student append increments the stored
`unreadCount` to 1, while the number of unread messages authored by someone
other than that student (the sender, as viewer) is 0 — the stored counter is
not the per-viewer count the claim asserts. -/
theorem unreadCount_viewer_cex :
    validateMessagePermission exConv "stu1" .student = .ok () ∧
    (sendMessageCore exConv { content := "hi" } "stu1" .student 8 8).unreadCount = 1 ∧
    unreadForViewer (sendMessageCore exConv { content := "hi" } "stu1" .student 8 8) "stu1" = 0 ∧
    (sendMessageCore exConv { content := "hi" } "stu1" .student 8 8).unreadCount ≠
      unreadForViewer (sendMessageCore exConv { content := "hi" } "stu1" .student 8 8) "stu1" := by
  decide

/-- C3 (amended): `unreadCount` is a single per-conversation counter, not a
per-viewer count: every append (participant or bot) increments it by one
regardless of author; `markMessagesAsRead` by a viewer who has at least one
unread message from someone else marks those messages read and resets the
counter to the number of remaining unread messages authored by someone other
than that viewer (which is then zero); when the viewer has no unread message
from someone else, the conversation (counter included) is left unchanged. -/
theorem unreadCount_counter_amended :
    (∀ (c : Conversation) (dto : SendMessageDto) (senderId : String)
       (senderType : ParticipantType) (freshId now : Nat),
        (sendMessageCore c dto senderId senderType freshId now).unreadCount =
          c.unreadCount + 1) ∧
    (∀ (c : Conversation) (content : String) (mt : MessageType)
       (md : Option MessageMetadata) (freshId now : Nat),
        (sendBotMessageCore c content mt md freshId now).unreadCount =
          c.unreadCount + 1) ∧
    (∀ (c : Conversation) (viewer : String),
        (c.messages.any fun m => !m.isRead && m.senderId != viewer) = true →
          (markMessagesAsRead c viewer).unreadCount =
            unreadForViewer (markMessagesAsRead c viewer) viewer ∧
          (markMessagesAsRead c viewer).unreadCount = 0) ∧
    (∀ (c : Conversation) (viewer : String),
        (c.messages.any fun m => !m.isRead && m.senderId != viewer) = false →
          markMessagesAsRead c viewer = c) := by
  refine ⟨fun c dto senderId senderType freshId now => rfl,
          fun c content mt md freshId now => rfl, ?_, ?_⟩
  · intro c viewer h
    unfold markMessagesAsRead
    simp only [h, if_true]
    constructor
    · rfl
    · simp [filter_flipUnread]
  · intro c viewer h
    unfold markMessagesAsRead
    simp [h]

/-- C3 witness: marking read as `stu1` on a conversation holding one unread
instructor message resets the counter to the (zero) per-viewer count. -/
theorem unreadCount_counter_amended_witness :
    (convWithUnread.messages.any fun m => !m.isRead && m.senderId != "stu1") = true ∧
    (markMessagesAsRead convWithUnread "stu1").unreadCount =
      unreadForViewer (markMessagesAsRead convWithUnread "stu1") "stu1" ∧
    (markMessagesAsRead convWithUnread "stu1").unreadCount = 0 :=
  ⟨by decide,
   (unreadCount_counter_amended.2.2.1 convWithUnread "stu1" (by decide)).1,
   (unreadCount_counter_amended.2.2.1 convWithUnread "stu1" (by decide)).2⟩

/-- C1 counterexample: the `(experimentId, studentId)` index is not unique
and `createConversation` is a find-then-insert sequence, so two interleaved
get-or-create calls for the same pair — both existence checks reading the
store before either insert — each pass the check and each insert, leaving two
conversations with distinct ids for one pair. -/
theorem getOrCreate_race_cex :
    createConversationCheck raceStore "exp1" "stu1" = none ∧
    ¬ ((convsForPair raceStep2.1.conversations "exp1" "stu1").length ≤ 1) ∧
    raceStep1.2._id ≠ raceStep2.2._id ∧
    (conversationIndexes.filter fun idx => idx.unique).length = 0 := by
  decide

/-- C1 (amended): get-or-create is idempotent only sequentially, and the
idempotency is enforced by the check-then-insert sequence, not by the store —
no conversation index is unique.  A second (non-interleaved)
`findOrCreateConversation` call for the same pair returns the very same
conversation and changes nothing. -/
theorem getOrCreate_sequential_idempotent :
    (∀ (st : PipelineState) (experimentId studentId title : String)
       (st1 : PipelineState) (c : Conversation),
        findOrCreateConversation st experimentId studentId title = (st1, .ok c) →
        findOrCreateConversation st1 experimentId studentId title = (st1, .ok c)) ∧
    conversationIndexes.all (fun idx => !idx.unique) = true := by
  refine ⟨?_, by decide⟩
  intro st e s t st1 c h
  unfold findOrCreateConversation at h ⊢
  cases h1 : firstConvFor st.conversations e s with
  | some conv =>
      simp only [h1, Prod.mk.injEq] at h
      obtain ⟨rfl, h2⟩ := h
      simp only [h1, h2]
  | none =>
      rw [h1] at h
      cases h2 : createConversation st e (some "Image submitted for analysis") s with
      | error err =>
          rw [h2] at h
          simp at h
      | ok pr =>
          obtain ⟨st', conv'⟩ := pr
          rw [h2] at h
          simp only [Prod.mk.injEq] at h
          obtain ⟨rfl, h3⟩ := h
          simp only [Except.ok.injEq] at h3
          subst h3
          unfold createConversation at h2
          cases h4 : findExperiment st e <;> rw [h4] at h2
          · simp at h2
          · rename_i exp
            cases h5 : createConversationCheck st e s <;> rw [h5] at h2
            · simp only [Except.ok.injEq] at h2
              have hA := congrArg Prod.fst h2
              have hB := congrArg Prod.snd h2
              subst hA
              subst hB
              have hnil : convsForPair st.conversations e s = [] := by
                unfold createConversationCheck at h5
                exact List.head?_eq_none_iff.mp h5
              have hconvs : (createConversationInsert st e s exp.instructorId
                  (some "Image submitted for analysis")).1.conversations =
                  st.conversations ++
                    [(createConversationInsert st e s exp.instructorId
                      (some "Image submitted for analysis")).2] := rfl
              have hpair : convsForPair
                  (createConversationInsert st e s exp.instructorId
                    (some "Image submitted for analysis")).1.conversations e s =
                  [(createConversationInsert st e s exp.instructorId
                    (some "Image submitted for analysis")).2] := by
                rw [hconvs]
                unfold convsForPair at hnil ⊢
                rw [List.filter_append, hnil]
                simp [createConversationInsert]
              have hfirst : firstConvFor
                  (createConversationInsert st e s exp.instructorId
                    (some "Image submitted for analysis")).1.conversations e s =
                  some (createConversationInsert st e s exp.instructorId
                    (some "Image submitted for analysis")).2 := by
                unfold firstConvFor
                rw [hpair]
                rfl
              rw [hfirst]
            · simp at h2

/-- C1 witness: a first get-or-create on an empty store creates the
conversation; the immediately following call returns the same conversation
and leaves the store unchanged. -/
theorem getOrCreate_sequential_idempotent_witness :
    findOrCreateConversation raceStore "exp1" "stu1" "Image Processing" =
      (raceStep1.1, .ok raceStep1.2) ∧
    findOrCreateConversation raceStep1.1 "exp1" "stu1" "Image Processing" =
      (raceStep1.1, .ok raceStep1.2) :=
  ⟨by decide,
   getOrCreate_sequential_idempotent.1 raceStore "exp1" "stu1" "Image Processing"
     raceStep1.1 raceStep1.2 (by decide)⟩

/-- The orchestrator helper returns an existing conversation unchanged. -/
theorem findOrCreateConversation_found (st : PipelineState) (e s ttl : String)
    (c : Conversation) (h : firstConvFor st.conversations e s = some c) :
    findOrCreateConversation st e s ttl = (st, .ok c) := by
  unfold findOrCreateConversation
  rw [h]

/-- C7: when the detector call fails (network error, timeout or non-200, all
surfaced as `success := false`), the run sets the record's status to
`failed`, persists the short failure note, and appends to the conversation
exactly one system-type error message and no feedback-type message. -/
theorem failure_run_spec :
    ∀ (env : PipelineEnv) (imageId : String) (st : PipelineState)
      (image : ImageRecord) (conversation : Conversation),
      findImage st imageId = some image →
      firstConvFor st.conversations image.experimentId image.userId = some conversation →
      convById st.conversations conversation._id = some conversation →
      env.mkdirFails = false →
      env.detectorResult.success = false →
      ∃ image' conversation',
        findImage (processUploadedImage env imageId st) imageId = some image' ∧
        convById (processUploadedImage env imageId st).conversations conversation._id =
          some conversation' ∧
        image'.processingStatus = "failed" ∧
        image'.feedback = "Processing failed - " ++ jsShowStr env.detectorResult.error ∧
        (conversation'.messages.drop conversation.messages.length).countP isErrorMessage = 1 ∧
        (conversation'.messages.drop conversation.messages.length).countP isFeedbackMessage = 0 := by
  intro env imageId st image conversation himg hconv hcid hmk hfail
  have hfc : findOrCreateConversation (saveImage st { image with processingStatus := "processing" })
      image.experimentId image.userId (jsOrStr image.originalFilename "Image Processing") =
      (saveImage st { image with processingStatus := "processing" }, .ok conversation) :=
    findOrCreateConversation_found _ _ _ _ _ hconv
  have hbody : processUploadedImage env imageId st =
      sendProcessingComplete
        (sendBotMessageGW
          (saveImage
            (sendProcessingUpdate
              (sendBotMessageGW (saveImage st { image with processingStatus := "processing" })
                conversation._id (startedMessage image.originalFilename) .system
                (some { imageId := some imageId, processingStatus := some "started"
                      , imageUrl := some image.imageUrl }))
              image.userId imageId "processing"
              "Bot: Starting Matrix code analysis using 3rd party service...")
            { { image with processingStatus := "processing" } with
                processingStatus := "failed"
              , feedback := "Processing failed - " ++ jsShowStr env.detectorResult.error })
          conversation._id (processingFailedMessage env.detectorResult.error) .system
          (some { imageId := some imageId, processingStatus := some "failed"
                , error := env.detectorResult.error }))
        image.userId imageId "failed"
        ("Processing failed - " ++ jsShowStr env.detectorResult.error) := by
    unfold processUploadedImage processBody
    simp only [himg, hfc, hmk, hfail, Bool.false_eq_true, if_false]
  rw [hbody]
  set imageP : ImageRecord := { image with processingStatus := "processing" } with himageP
  set md1 : Option MessageMetadata :=
    some { imageId := some imageId, processingStatus := some "started"
         , imageUrl := some image.imageUrl } with hmd1
  set st1 : PipelineState := saveImage st imageP with hst1
  set st2 : PipelineState := sendBotMessageGW st1 conversation._id
    (startedMessage image.originalFilename) .system md1 with hst2
  set st3 : PipelineState := sendProcessingUpdate st2 image.userId imageId "processing"
    "Bot: Starting Matrix code analysis using 3rd party service..." with hst3
  set imageF : ImageRecord :=
    { imageP with
        processingStatus := "failed"
      , feedback := "Processing failed - " ++ jsShowStr env.detectorResult.error } with himageF
  set md2 : Option MessageMetadata :=
    some { imageId := some imageId, processingStatus := some "failed"
         , error := env.detectorResult.error } with hmd2
  set st4 : PipelineState := saveImage st3 imageF with hst4
  set st5 : PipelineState := sendBotMessageGW st4 conversation._id
    (processingFailedMessage env.detectorResult.error) .system md2 with hst5
  have h1 : findImage st1 imageId = some imageP :=
    findImage_saveImage_self st imageId image imageP himg rfl
  have h2 : findImage st2 imageId = some imageP :=
    (findImage_congr st2 st1 imageId (images_sendBotMessageGW st1 _ _ _ _)).trans h1
  have h3 : findImage st3 imageId = some imageP := h2
  have h4 : findImage st4 imageId = some imageF :=
    findImage_saveImage_self st3 imageId imageP imageF h3 rfl
  have h5 : findImage st5 imageId = some imageF :=
    (findImage_congr st5 st4 imageId (images_sendBotMessageGW st4 _ _ _ _)).trans h4
  have c1 : convById st1.conversations conversation._id = some conversation := hcid
  have c2 : convById st2.conversations conversation._id =
      some (sendBotMessageCore conversation (startedMessage image.originalFilename)
        .system md1 st1.counter st1.counter) :=
    convById_sendBotMessageGW st1 conversation._id conversation _ _ _ c1
  have c4 : convById st4.conversations conversation._id =
      some (sendBotMessageCore conversation (startedMessage image.originalFilename)
        .system md1 st1.counter st1.counter) := c2
  have c5 : convById st5.conversations conversation._id =
      some (sendBotMessageCore
        (sendBotMessageCore conversation (startedMessage image.originalFilename)
          .system md1 st1.counter st1.counter)
        (processingFailedMessage env.detectorResult.error) .system md2
        st4.counter st4.counter) :=
    convById_sendBotMessageGW st4 conversation._id _ _ _ _ c4
  refine ⟨imageF,
    sendBotMessageCore
      (sendBotMessageCore conversation (startedMessage image.originalFilename)
        .system md1 st1.counter st1.counter)
      (processingFailedMessage env.detectorResult.error) .system md2
      st4.counter st4.counter,
    h5, c5, rfl, rfl, ?_, ?_⟩
  · simp only [sendBotMessageCore, List.append_assoc]
    rw [List.drop_left]
    simp [isErrorMessage, hmd1, hmd2]
  · simp only [sendBotMessageCore, List.append_assoc]
    rw [List.drop_left]
    simp [isFeedbackMessage, hmd1, hmd2]

/-- Characterization of a full orchestrator run whose detector result is
successful (shared by the success-path theorems). -/
theorem processSuccessRun :
    ∀ (env : PipelineEnv) (imageId : String) (st : PipelineState)
      (image : ImageRecord) (conversation : Conversation),
      findImage st imageId = some image →
      firstConvFor st.conversations image.experimentId image.userId = some conversation →
      convById st.conversations conversation._id = some conversation →
      env.mkdirFails = false →
      env.detectorResult.success = true →
      ∃ image' conversation',
        findImage (processUploadedImage env imageId st) imageId = some image' ∧
        convById (processUploadedImage env imageId st).conversations conversation._id =
          some conversation' ∧
        image'.processingStatus =
          (if env.detectorResult.unreadableCodes == some 0 then "completed"
           else "needs_review") ∧
        image'.detectedComponents = env.detectorResult.detectedCodes.getD [] ∧
        image'.feedback = env.detectorResult.report.getD "" ∧
        image'.processedImageUrl =
          (if jsTruthyStr env.detectorResult.processedImagePath then
            env.detectorResult.processedImagePath
           else image.processedImageUrl) ∧
        (conversation'.messages.drop conversation.messages.length).countP isFeedbackMessage = 1 ∧
        (conversation'.messages.drop conversation.messages.length).countP isGuidanceMessage =
          (if jsGtZero env.detectorResult.unreadableCodes then 1 else 0) ∧
        (conversation'.messages.drop conversation.messages.length).countP isCircuitMessage = 1 := by
  intro env imageId st image conversation himg hconv hcid hmk hsucc
  have hfc : findOrCreateConversation (saveImage st { image with processingStatus := "processing" })
      image.experimentId image.userId (jsOrStr image.originalFilename "Image Processing") =
      (saveImage st { image with processingStatus := "processing" }, .ok conversation) :=
    findOrCreateConversation_found _ _ _ _ _ hconv
  have hbody : processUploadedImage env imageId st =
      sendProcessingComplete
        (sendBotMessageGW
          (if jsGtZero env.detectorResult.unreadableCodes then
            sendBotMessageGW
              (sendBotMessageGW
                (saveImage
                  (sendProcessingUpdate
                    (sendBotMessageGW
                      (saveImage st { image with processingStatus := "processing" })
                      conversation._id (startedMessage image.originalFilename) .system
                      (some { imageId := some imageId, processingStatus := some "started"
                            , imageUrl := some image.imageUrl }))
                    image.userId imageId "processing"
                    "Bot: Starting Matrix code analysis using 3rd party service...")
                  { { image with processingStatus := "processing" } with
                      detectedComponents := env.detectorResult.detectedCodes.getD []
                    , feedback := env.detectorResult.report.getD ""
                    , processingStatus :=
                        if env.detectorResult.unreadableCodes == some 0 then "completed"
                        else "needs_review"
                    , processedImageUrl :=
                        if jsTruthyStr env.detectorResult.processedImagePath then
                          env.detectorResult.processedImagePath
                        else image.processedImageUrl })
                conversation._id (createFeedbackMessage env.detectorResult) .feedback
                (some { imageId := some imageId
                      , processingStatus :=
                          some (if env.detectorResult.unreadableCodes == some 0 then "completed"
                                else "needs_review")
                      , totalCodes := env.detectorResult.totalCodes
                      , readableCodes := env.detectorResult.readableCodes
                      , unreadableCodes := env.detectorResult.unreadableCodes
                      , processedImageUrl := env.detectorResult.processedImagePath
                      , detectedComponents := env.detectorResult.detectedCodes }))
              conversation._id (createGuidanceMessage env.detectorResult) .system
              (some { imageId := some imageId, type := some "guidance"
                    , unreadableCodes := env.detectorResult.unreadableCodes })
          else
            sendBotMessageGW
              (saveImage
                (sendProcessingUpdate
                  (sendBotMessageGW
                    (saveImage st { image with processingStatus := "processing" })
                    conversation._id (startedMessage image.originalFilename) .system
                    (some { imageId := some imageId, processingStatus := some "started"
                          , imageUrl := some image.imageUrl }))
                  image.userId imageId "processing"
                  "Bot: Starting Matrix code analysis using 3rd party service...")
                { { image with processingStatus := "processing" } with
                    detectedComponents := env.detectorResult.detectedCodes.getD []
                  , feedback := env.detectorResult.report.getD ""
                  , processingStatus :=
                      if env.detectorResult.unreadableCodes == some 0 then "completed"
                      else "needs_review"
                  , processedImageUrl :=
                      if jsTruthyStr env.detectorResult.processedImagePath then
                        env.detectorResult.processedImagePath
                      else image.processedImageUrl })
              conversation._id (createFeedbackMessage env.detectorResult) .feedback
              (some { imageId := some imageId
                    , processingStatus :=
                        some (if env.detectorResult.unreadableCodes == some 0 then "completed"
                              else "needs_review")
                    , totalCodes := env.detectorResult.totalCodes
                    , readableCodes := env.detectorResult.readableCodes
                    , unreadableCodes := env.detectorResult.unreadableCodes
                    , processedImageUrl := env.detectorResult.processedImagePath
                    , detectedComponents := env.detectorResult.detectedCodes }))
          conversation._id createCircuitMessage .system
          (some { imageId := some imageId, type := some "circuit_link"
                , circuitUrl := some circuitSimUrl }))
        image.userId imageId
        (if env.detectorResult.unreadableCodes == some 0 then "completed" else "needs_review")
        (jsShowStr env.detectorResult.report) := by
    unfold processUploadedImage processBody
    simp only [himg, hfc, hmk, hsucc, Bool.false_eq_true, if_false, eq_self_iff_true, if_true]
  rw [hbody]
  set imageP : ImageRecord := { image with processingStatus := "processing" } with himageP
  set md1 : Option MessageMetadata :=
    some { imageId := some imageId, processingStatus := some "started"
         , imageUrl := some image.imageUrl } with hmd1
  set st1 : PipelineState := saveImage st imageP with hst1
  set st2 : PipelineState := sendBotMessageGW st1 conversation._id
    (startedMessage image.originalFilename) .system md1 with hst2
  set st3 : PipelineState := sendProcessingUpdate st2 image.userId imageId "processing"
    "Bot: Starting Matrix code analysis using 3rd party service..." with hst3
  set imageS : ImageRecord :=
    { imageP with
        detectedComponents := env.detectorResult.detectedCodes.getD []
      , feedback := env.detectorResult.report.getD ""
      , processingStatus :=
          if env.detectorResult.unreadableCodes == some 0 then "completed"
          else "needs_review"
      , processedImageUrl :=
          if jsTruthyStr env.detectorResult.processedImagePath then
            env.detectorResult.processedImagePath
          else image.processedImageUrl } with himageS
  set mdF : Option MessageMetadata :=
    some { imageId := some imageId
         , processingStatus :=
             some (if env.detectorResult.unreadableCodes == some 0 then "completed"
                   else "needs_review")
         , totalCodes := env.detectorResult.totalCodes
         , readableCodes := env.detectorResult.readableCodes
         , unreadableCodes := env.detectorResult.unreadableCodes
         , processedImageUrl := env.detectorResult.processedImagePath
         , detectedComponents := env.detectorResult.detectedCodes } with hmdF
  set mdG : Option MessageMetadata :=
    some { imageId := some imageId, type := some "guidance"
         , unreadableCodes := env.detectorResult.unreadableCodes } with hmdG
  set mdC : Option MessageMetadata :=
    some { imageId := some imageId, type := some "circuit_link"
         , circuitUrl := some circuitSimUrl } with hmdC
  set st4 : PipelineState := saveImage st3 imageS with hst4
  set st5 : PipelineState := sendBotMessageGW st4 conversation._id
    (createFeedbackMessage env.detectorResult) .feedback mdF with hst5
  have h1 : findImage st1 imageId = some imageP :=
    findImage_saveImage_self st imageId image imageP himg rfl
  have h2 : findImage st2 imageId = some imageP :=
    (findImage_congr st2 st1 imageId (images_sendBotMessageGW st1 _ _ _ _)).trans h1
  have h3 : findImage st3 imageId = some imageP := h2
  have h4 : findImage st4 imageId = some imageS :=
    findImage_saveImage_self st3 imageId imageP imageS h3 rfl
  have h5 : findImage st5 imageId = some imageS :=
    (findImage_congr st5 st4 imageId (images_sendBotMessageGW st4 _ _ _ _)).trans h4
  have c1 : convById st1.conversations conversation._id = some conversation := hcid
  have c2 : convById st2.conversations conversation._id =
      some (sendBotMessageCore conversation (startedMessage image.originalFilename)
        .system md1 st1.counter st1.counter) :=
    convById_sendBotMessageGW st1 conversation._id conversation _ _ _ c1
  have c4 : convById st4.conversations conversation._id =
      some (sendBotMessageCore conversation (startedMessage image.originalFilename)
        .system md1 st1.counter st1.counter) := c2
  have c5 : convById st5.conversations conversation._id =
      some (sendBotMessageCore
        (sendBotMessageCore conversation (startedMessage image.originalFilename)
          .system md1 st1.counter st1.counter)
        (createFeedbackMessage env.detectorResult) .feedback mdF
        st4.counter st4.counter) :=
    convById_sendBotMessageGW st4 conversation._id _ _ _ _ c4
  cases hg : jsGtZero env.detectorResult.unreadableCodes
  · simp only [hg, Bool.false_eq_true, if_false]
    set st7 : PipelineState := sendBotMessageGW st5 conversation._id
      createCircuitMessage .system mdC with hst7
    have h7 : findImage st7 imageId = some imageS :=
      (findImage_congr st7 st5 imageId (images_sendBotMessageGW st5 _ _ _ _)).trans h5
    have c7 : convById st7.conversations conversation._id =
        some (sendBotMessageCore
          (sendBotMessageCore
            (sendBotMessageCore conversation (startedMessage image.originalFilename)
              .system md1 st1.counter st1.counter)
            (createFeedbackMessage env.detectorResult) .feedback mdF
            st4.counter st4.counter)
          createCircuitMessage .system mdC st5.counter st5.counter) :=
      convById_sendBotMessageGW st5 conversation._id _ _ _ _ c5
    refine ⟨imageS, _, h7, c7, rfl, rfl, rfl, rfl, ?_, ?_, ?_⟩
    · simp only [sendBotMessageCore, List.append_assoc]
      rw [List.drop_left]
      simp [isFeedbackMessage, hmd1, hmdF, hmdC]
    · simp only [sendBotMessageCore, List.append_assoc]
      rw [List.drop_left]
      simp [isGuidanceMessage, hmd1, hmdF, hmdC]
    · simp only [sendBotMessageCore, List.append_assoc]
      rw [List.drop_left]
      simp [isCircuitMessage, hmd1, hmdF, hmdC]
  · simp only [hg, eq_self_iff_true, if_true]
    set st6 : PipelineState := sendBotMessageGW st5 conversation._id
      (createGuidanceMessage env.detectorResult) .system mdG with hst6
    set st7 : PipelineState := sendBotMessageGW st6 conversation._id
      createCircuitMessage .system mdC with hst7
    have h6 : findImage st6 imageId = some imageS :=
      (findImage_congr st6 st5 imageId (images_sendBotMessageGW st5 _ _ _ _)).trans h5
    have h7 : findImage st7 imageId = some imageS :=
      (findImage_congr st7 st6 imageId (images_sendBotMessageGW st6 _ _ _ _)).trans h6
    have c6 : convById st6.conversations conversation._id =
        some (sendBotMessageCore
          (sendBotMessageCore
            (sendBotMessageCore conversation (startedMessage image.originalFilename)
              .system md1 st1.counter st1.counter)
            (createFeedbackMessage env.detectorResult) .feedback mdF
            st4.counter st4.counter)
          (createGuidanceMessage env.detectorResult) .system mdG
          st5.counter st5.counter) :=
      convById_sendBotMessageGW st5 conversation._id _ _ _ _ c5
    have c7 : convById st7.conversations conversation._id =
        some (sendBotMessageCore
          (sendBotMessageCore
            (sendBotMessageCore
              (sendBotMessageCore conversation (startedMessage image.originalFilename)
                .system md1 st1.counter st1.counter)
              (createFeedbackMessage env.detectorResult) .feedback mdF
              st4.counter st4.counter)
            (createGuidanceMessage env.detectorResult) .system mdG
            st5.counter st5.counter)
          createCircuitMessage .system mdC st6.counter st6.counter) :=
      convById_sendBotMessageGW st6 conversation._id _ _ _ _ c6
    refine ⟨imageS, _, h7, c7, rfl, rfl, rfl, rfl, ?_, ?_, ?_⟩
    · simp only [sendBotMessageCore, List.append_assoc]
      rw [List.drop_left]
      simp [isFeedbackMessage, hmd1, hmdF, hmdG, hmdC]
    · simp only [sendBotMessageCore, List.append_assoc]
      rw [List.drop_left]
      simp [isGuidanceMessage, hmd1, hmdF, hmdG, hmdC]
    · simp only [sendBotMessageCore, List.append_assoc]
      rw [List.drop_left]
      simp [isCircuitMessage, hmd1, hmdF, hmdG, hmdC]

/-- C6: on a successful detector result the run persists the detected
components and feedback text, sets the status to `completed` exactly when the
result's unreadable count is zero and to `needs_review` otherwise, stores the
annotated-image locator when one is present (otherwise leaves the record's
locator alone), pushes exactly one `feedback` message, pushes the `system`
guidance message if and only if some code is unreadable, and pushes exactly
one final `system` message with the companion circuit-simulator link. -/
theorem success_run_spec :
    ∀ (env : PipelineEnv) (imageId : String) (st : PipelineState)
      (image : ImageRecord) (conversation : Conversation),
      findImage st imageId = some image →
      firstConvFor st.conversations image.experimentId image.userId = some conversation →
      convById st.conversations conversation._id = some conversation →
      env.mkdirFails = false →
      env.detectorResult.success = true →
      ∃ image' conversation',
        findImage (processUploadedImage env imageId st) imageId = some image' ∧
        convById (processUploadedImage env imageId st).conversations conversation._id =
          some conversation' ∧
        image'.processingStatus =
          (if env.detectorResult.unreadableCodes == some 0 then "completed"
           else "needs_review") ∧
        image'.detectedComponents = env.detectorResult.detectedCodes.getD [] ∧
        image'.feedback = env.detectorResult.report.getD "" ∧
        image'.processedImageUrl =
          (if jsTruthyStr env.detectorResult.processedImagePath then
            env.detectorResult.processedImagePath
           else image.processedImageUrl) ∧
        (conversation'.messages.drop conversation.messages.length).countP isFeedbackMessage = 1 ∧
        (conversation'.messages.drop conversation.messages.length).countP isGuidanceMessage =
          (if jsGtZero env.detectorResult.unreadableCodes then 1 else 0) ∧
        (conversation'.messages.drop conversation.messages.length).countP isCircuitMessage = 1 :=
  processSuccessRun

/-- C6 witness (scenario A): two readable codes — the record completes and
the conversation gets one feedback message, no guidance message, and the
circuit-link message. -/
theorem success_run_spec_witness :
    findImage exState "img1" = some exImage ∧
    envSuccess.detectorResult.success = true ∧
    envSuccess.detectorResult.unreadableCodes = some 0 ∧
    (∃ image' conversation',
      findImage (processUploadedImage envSuccess "img1" exState) "img1" = some image' ∧
      convById (processUploadedImage envSuccess "img1" exState).conversations exConv._id =
        some conversation' ∧
      image'.processingStatus =
        (if envSuccess.detectorResult.unreadableCodes == some 0 then "completed"
         else "needs_review") ∧
      image'.detectedComponents = envSuccess.detectorResult.detectedCodes.getD [] ∧
      image'.feedback = envSuccess.detectorResult.report.getD "" ∧
      image'.processedImageUrl =
        (if jsTruthyStr envSuccess.detectorResult.processedImagePath then
          envSuccess.detectorResult.processedImagePath
         else exImage.processedImageUrl) ∧
      (conversation'.messages.drop exConv.messages.length).countP isFeedbackMessage = 1 ∧
      (conversation'.messages.drop exConv.messages.length).countP isGuidanceMessage =
        (if jsGtZero envSuccess.detectorResult.unreadableCodes then 1 else 0) ∧
      (conversation'.messages.drop exConv.messages.length).countP isCircuitMessage = 1) :=
  ⟨by decide, by decide, by decide,
   success_run_spec envSuccess "img1" exState exImage exConv
     (by decide) (by decide) (by decide) rfl (by decide)⟩

/-- C7 witness (scenario B): the detector call is refused — the record fails
with the failure note and the conversation gets exactly one system error
message and no feedback message. -/
theorem failure_run_spec_witness :
    findImage exState "img1" = some exImage ∧
    envFail.detectorResult.success = false ∧
    (∃ image' conversation',
      findImage (processUploadedImage envFail "img1" exState) "img1" = some image' ∧
      convById (processUploadedImage envFail "img1" exState).conversations exConv._id =
        some conversation' ∧
      image'.processingStatus = "failed" ∧
      image'.feedback = "Processing failed - " ++ jsShowStr envFail.detectorResult.error ∧
      (conversation'.messages.drop exConv.messages.length).countP isErrorMessage = 1 ∧
      (conversation'.messages.drop exConv.messages.length).countP isFeedbackMessage = 0) :=
  ⟨by decide, by decide,
   failure_run_spec envFail "img1" exState exImage exConv
     (by decide) (by decide) (by decide) rfl (by decide)⟩

/-- Every code produced by the schema conversion is marked readable. -/
theorem convertThirdPartyResponse_readable (response : ThirdPartyResponse) :
    ∀ c ∈ convertThirdPartyResponse response, c.readable = true := by
  intro c hc
  unfold convertThirdPartyResponse at hc
  by_cases h : response.detected_codes.length = 0
  · rw [if_pos h] at hc
    simp at hc
  · rw [if_neg h] at hc
    rw [List.mem_map] at hc
    obtain ⟨x, _, hfx⟩ := hc
    rw [← hfx]

/-- C10: the conversion marks every detected code readable (confidence 0.9)
regardless of the response, so every successful processing result has zero
unreadable codes and readable = total; consequently on the success path the
orchestrator always reaches status `completed` and never sends the guidance
message. -/
theorem all_codes_readable_consequence :
    (∀ response : ThirdPartyResponse,
      (convertThirdPartyResponse response).all (fun c => c.readable) = true ∧
      ((convertThirdPartyResponse response).filter fun c => !c.readable).length = 0 ∧
      ((convertThirdPartyResponse response).filter fun c => c.readable).length =
        (convertThirdPartyResponse response).length ∧
      ∀ c ∈ convertThirdPartyResponse response, c.confidence = (9 : ℚ) / 10) ∧
    (∀ (response : ThirdPartyResponse) (path : Option String),
      (processImageSuccess response path).unreadableCodes = some 0 ∧
      (processImageSuccess response path).readableCodes =
        (processImageSuccess response path).totalCodes) ∧
    (∀ (response : ThirdPartyResponse) (path : Option String) (imageId : String)
       (st : PipelineState) (image : ImageRecord) (conversation : Conversation),
      findImage st imageId = some image →
      firstConvFor st.conversations image.experimentId image.userId = some conversation →
      convById st.conversations conversation._id = some conversation →
      ∃ image' conversation',
        findImage (processUploadedImage
          { detectorResult := processImageSuccess response path, mkdirFails := false }
          imageId st) imageId = some image' ∧
        convById (processUploadedImage
          { detectorResult := processImageSuccess response path, mkdirFails := false }
          imageId st).conversations conversation._id = some conversation' ∧
        image'.processingStatus = "completed" ∧
        (conversation'.messages.drop conversation.messages.length).countP
          isGuidanceMessage = 0) := by
  have hfilter : ∀ response : ThirdPartyResponse,
      ((convertThirdPartyResponse response).filter fun c => !c.readable) = [] := by
    intro response
    rw [List.filter_eq_nil_iff]
    intro c hc
    simp [convertThirdPartyResponse_readable response c hc]
  have hunread : ∀ (response : ThirdPartyResponse) (path : Option String),
      (processImageSuccess response path).unreadableCodes = some 0 := by
    intro response path
    show some ((convertThirdPartyResponse response).filter fun c => !c.readable).length = some 0
    rw [hfilter]
    rfl
  refine ⟨?_, ?_, ?_⟩
  · intro response
    refine ⟨?_, ?_, ?_, ?_⟩
    · rw [List.all_eq_true]
      intro c hc
      simp [convertThirdPartyResponse_readable response c hc]
    · rw [hfilter]
      rfl
    · rw [List.filter_eq_self.mpr]
      intro c hc
      simp [convertThirdPartyResponse_readable response c hc]
    · intro c hc
      unfold convertThirdPartyResponse at hc
      by_cases h : response.detected_codes.length = 0
      · rw [if_pos h] at hc
        simp at hc
      · rw [if_neg h] at hc
        rw [List.mem_map] at hc
        obtain ⟨x, _, hfx⟩ := hc
        rw [← hfx]
  · intro response path
    refine ⟨hunread response path, ?_⟩
    show some ((convertThirdPartyResponse response).filter fun c => c.readable).length =
      some (convertThirdPartyResponse response).length
    rw [List.filter_eq_self.mpr]
    intro c hc
    simp [convertThirdPartyResponse_readable response c hc]
  · intro response path imageId st image conversation himg hconv hcid
    obtain ⟨image', conversation', f1, f2, f3, _, _, _, _, f8, _⟩ :=
      processSuccessRun { detectorResult := processImageSuccess response path
                        , mkdirFails := false }
        imageId st image conversation himg hconv hcid rfl rfl
    refine ⟨image', conversation', f1, f2, ?_, ?_⟩
    · rw [hunread response path] at f3
      simpa using f3
    · rw [hunread response path] at f8
      simpa [jsGtZero] using f8

/-- C10 witness: the two-code response converts to all-readable codes and a
run with it completes without a guidance message. -/
theorem all_codes_readable_consequence_witness :
    findImage exState "img1" = some exImage ∧
    (∃ image' conversation',
      findImage (processUploadedImage
        { detectorResult := processImageSuccess respTwoCodes (some "uploads/processed/a.jpg")
        , mkdirFails := false } "img1" exState) "img1" = some image' ∧
      convById (processUploadedImage
        { detectorResult := processImageSuccess respTwoCodes (some "uploads/processed/a.jpg")
        , mkdirFails := false } "img1" exState).conversations exConv._id =
        some conversation' ∧
      image'.processingStatus = "completed" ∧
      (conversation'.messages.drop exConv.messages.length).countP isGuidanceMessage = 0) :=
  ⟨by decide,
   all_codes_readable_consequence.2.2 respTwoCodes (some "uploads/processed/a.jpg")
     "img1" exState exImage exConv (by decide) (by decide) (by decide)⟩

/-- `saveImage` appends the saved status to the write log. -/
theorem statusLog_saveImage (st : PipelineState) (image : ImageRecord) :
    (saveImage st image).statusLog =
      st.statusLog ++ [(image._id, image.processingStatus)] := rfl

/-- Characterization of the top-level catch handler: it re-loads the record,
forces `failed` with the generic note (logging exactly one `failed` save), and
when the conversation for the record's pair resolves, appends exactly one
system error message to it. -/
theorem catchErrorHandler_spec :
    ∀ (imageId errorMessage : String) (stB : PipelineState) (imageB : ImageRecord),
      findImage stB imageId = some imageB →
      ∃ image',
        findImage (catchErrorHandler imageId errorMessage stB) imageId = some image' ∧
        image'.processingStatus = "failed" ∧
        image'.feedback = "An unexpected error occurred during processing." ∧
        (catchErrorHandler imageId errorMessage stB).statusLog =
          stB.statusLog ++ [(imageId, "failed")] ∧
        (∀ conversation : Conversation,
          firstConvFor stB.conversations imageB.experimentId imageB.userId =
            some conversation →
          convById stB.conversations conversation._id = some conversation →
          ∃ conversation',
            convById (catchErrorHandler imageId errorMessage stB).conversations
              conversation._id = some conversation' ∧
            (conversation'.messages.drop conversation.messages.length).countP
              isErrorMessage = 1) := by
  intro imageId errorMessage stB imageB hB
  have hid : imageB._id = imageId := by
    unfold findImage at hB
    simpa using List.find?_some hB
  have hbf : findImage (saveImage stB
      { imageB with
          processingStatus := "failed"
        , feedback := "An unexpected error occurred during processing." }) imageId =
      some { imageB with
          processingStatus := "failed"
        , feedback := "An unexpected error occurred during processing." } :=
    findImage_saveImage_self stB imageId imageB _ hB rfl
  unfold catchErrorHandler
  simp only [hB]
  cases hfc2 : findOrCreateConversation
      (saveImage stB
        { imageB with
            processingStatus := "failed"
          , feedback := "An unexpected error occurred during processing." })
      imageB.experimentId imageB.userId "Image Processing Error" with
  | mk stY r2 =>
      have hfst : (findOrCreateConversation
          (saveImage stB
            { imageB with
                processingStatus := "failed"
              , feedback := "An unexpected error occurred during processing." })
          imageB.experimentId imageB.userId "Image Processing Error").1 = stY := by
        rw [hfc2]
      have hYimages : stY.images =
          (saveImage stB
            { imageB with
                processingStatus := "failed"
              , feedback := "An unexpected error occurred during processing." }).images := by
        rw [← hfst]
        exact images_findOrCreateConversation _ _ _ _
      have hYlog : stY.statusLog =
          stB.statusLog ++ [(imageId, "failed")] := by
        rw [← hfst]
        rw [statusLog_findOrCreateConversation, statusLog_saveImage]
        simp [hid]
      have hYfind : findImage stY imageId =
          some { imageB with
              processingStatus := "failed"
            , feedback := "An unexpected error occurred during processing." } :=
        (findImage_congr _ _ imageId hYimages).trans hbf
      cases r2 with
      | error err =>
          refine ⟨_, hYfind, rfl, rfl, hYlog, ?_⟩
          intro conversation hconv2 _
          exfalso
          have hok := findOrCreateConversation_found
            (saveImage stB
              { imageB with
                  processingStatus := "failed"
                , feedback := "An unexpected error occurred during processing." })
            imageB.experimentId imageB.userId "Image Processing Error" conversation hconv2
          rw [hfc2] at hok
          simp at hok
      | ok conv0 =>
          have hfind : findImage (sendProcessingComplete
              (sendBotMessageGW stY conv0._id (unexpectedErrorMessage errorMessage) .system
                (some { imageId := some imageId, processingStatus := some "failed"
                      , error := some errorMessage }))
              imageB.userId imageId "failed"
              "An unexpected error occurred during processing.") imageId =
              some { imageB with
                  processingStatus := "failed"
                , feedback := "An unexpected error occurred during processing." } :=
            (findImage_congr _ stY imageId (images_sendBotMessageGW stY _ _ _ _)).trans hYfind
          have hlog : (sendProcessingComplete
              (sendBotMessageGW stY conv0._id (unexpectedErrorMessage errorMessage) .system
                (some { imageId := some imageId, processingStatus := some "failed"
                      , error := some errorMessage }))
              imageB.userId imageId "failed"
              "An unexpected error occurred during processing.").statusLog =
              stB.statusLog ++ [(imageId, "failed")] := by
            show (sendBotMessageGW stY conv0._id (unexpectedErrorMessage errorMessage) .system
              (some { imageId := some imageId, processingStatus := some "failed"
                    , error := some errorMessage })).statusLog =
              stB.statusLog ++ [(imageId, "failed")]
            rw [statusLog_sendBotMessageGW]
            exact hYlog
          refine ⟨_, hfind, rfl, rfl, hlog, ?_⟩
          intro conversation hconv2 hcid2
          have hok := findOrCreateConversation_found
            (saveImage stB
              { imageB with
                  processingStatus := "failed"
                , feedback := "An unexpected error occurred during processing." })
            imageB.experimentId imageB.userId "Image Processing Error" conversation hconv2
          rw [hfc2] at hok
          simp only [Prod.mk.injEq, Except.ok.injEq] at hok
          obtain ⟨hY, hc0⟩ := hok
          subst hY
          subst hc0
          have c1 : convById
              (saveImage stB
                { imageB with
                    processingStatus := "failed"
                  , feedback := "An unexpected error occurred during processing." }).conversations
              conv0._id = some conv0 := hcid2
          have c2 := convById_sendBotMessageGW
            (saveImage stB
              { imageB with
                  processingStatus := "failed"
                , feedback := "An unexpected error occurred during processing." })
            conv0._id conv0 (unexpectedErrorMessage errorMessage) .system
            (some { imageId := some imageId, processingStatus := some "failed"
                  , error := some errorMessage }) c1
          refine ⟨_, c2, ?_⟩
          simp only [sendBotMessageCore]
          rw [List.drop_left]
          simp [isErrorMessage]

theorem images_sendProcessingUpdate (s : PipelineState) (u i stat m : String) :
    (sendProcessingUpdate s u i stat m).images = s.images := rfl

theorem images_sendProcessingComplete (s : PipelineState) (u i stat m : String) :
    (sendProcessingComplete s u i stat m).images = s.images := rfl

theorem statusLog_sendProcessingUpdate (s : PipelineState) (u i stat m : String) :
    (sendProcessingUpdate s u i stat m).statusLog = s.statusLog := rfl

theorem statusLog_sendProcessingComplete (s : PipelineState) (u i stat m : String) :
    (sendProcessingComplete s u i stat m).statusLog = s.statusLog := rfl

theorem processUploadedImage_of_none (env : PipelineEnv) (imageId : String)
    (st stF : PipelineState) (h : processBody env imageId st = (stF, none)) :
    processUploadedImage env imageId st = stF := by
  unfold processUploadedImage
  rw [h]

theorem images_ite_sendBotMessageGW (g : Bool) (s : PipelineState) (cid : Nat)
    (content : String) (mt : MessageType) (md : Option MessageMetadata) :
    (if g then sendBotMessageGW s cid content mt md else s).images = s.images := by
  cases g
  · rfl
  · simp [images_sendBotMessageGW]

theorem statusLog_ite_sendBotMessageGW (g : Bool) (s : PipelineState) (cid : Nat)
    (content : String) (mt : MessageType) (md : Option MessageMetadata) :
    (if g then sendBotMessageGW s cid content mt md else s).statusLog = s.statusLog := by
  cases g
  · rfl
  · simp [statusLog_sendBotMessageGW]

/-- Characterization of a full orchestrator run on an existing record: the
run logs exactly one `processing` save followed by one terminal save, leaves
the record in that terminal status, and if the try-body raised an exception,
the terminal status is `failed` with the generic note and (when the pair's
conversation resolves) exactly one system error message is appended. -/
theorem runStatusSpec :
    ∀ (env : PipelineEnv) (imageId : String) (st : PipelineState) (image : ImageRecord),
      findImage st imageId = some image →
      ∃ t image',
        (t = "completed" ∨ t = "needs_review" ∨ t = "failed") ∧
        (processUploadedImage env imageId st).statusLog =
          st.statusLog ++ [(imageId, "processing"), (imageId, t)] ∧
        findImage (processUploadedImage env imageId st) imageId = some image' ∧
        image'.processingStatus = t ∧
        (∀ (stB : PipelineState) (e : String),
          processBody env imageId st = (stB, some e) →
          t = "failed" ∧
          image'.feedback = "An unexpected error occurred during processing." ∧
          (∀ conversation : Conversation,
            firstConvFor stB.conversations image.experimentId image.userId =
              some conversation →
            convById stB.conversations conversation._id = some conversation →
            ∃ conversation',
              convById (processUploadedImage env imageId st).conversations
                conversation._id = some conversation' ∧
              (conversation'.messages.drop conversation.messages.length).countP
                isErrorMessage = 1)) := by
  intro env imageId st image himg
  have hid : image._id = imageId := by
    unfold findImage at himg
    simpa using List.find?_some himg
  cases hfc : findOrCreateConversation
      (saveImage st { image with processingStatus := "processing" })
      image.experimentId image.userId
      (jsOrStr image.originalFilename "Image Processing") with
  | mk stX r =>
      have hfst : (findOrCreateConversation
          (saveImage st { image with processingStatus := "processing" })
          image.experimentId image.userId
          (jsOrStr image.originalFilename "Image Processing")).1 = stX := by
        rw [hfc]
      have hXimages : stX.images =
          (saveImage st { image with processingStatus := "processing" }).images := by
        rw [← hfst]
        exact images_findOrCreateConversation _ _ _ _
      have hXlog : stX.statusLog = st.statusLog ++ [(imageId, "processing")] := by
        rw [← hfst, statusLog_findOrCreateConversation, statusLog_saveImage]
        simp [hid]
      have hXfind : findImage stX imageId =
          some { image with processingStatus := "processing" } :=
        (findImage_congr stX _ imageId hXimages).trans
          (findImage_saveImage_self st imageId image _ himg rfl)
      cases r with
      | error err =>
          have hbody : processBody env imageId st = (stX, some err.message) := by
            unfold processBody
            simp only [himg, hfc]
          have hfin : processUploadedImage env imageId st =
              catchErrorHandler imageId err.message stX := by
            unfold processUploadedImage
            rw [hbody]
          obtain ⟨image', f1, f2, f3, f4, f5⟩ :=
            catchErrorHandler_spec imageId err.message stX _ hXfind
          refine ⟨"failed", image', by simp, ?_, ?_, f2, ?_⟩
          · rw [hfin, f4, hXlog]
            simp
          · rw [hfin]
            exact f1
          · intro stB e hBe
            rw [hbody] at hBe
            simp only [Prod.mk.injEq, Option.some.injEq] at hBe
            obtain ⟨h1, h2⟩ := hBe
            subst h1
            refine ⟨rfl, f3, ?_⟩
            intro conversation hconv2 hcid2
            obtain ⟨conversation', g1, g2⟩ := f5 conversation hconv2 hcid2
            refine ⟨conversation', ?_, g2⟩
            rw [hfin]
            exact g1
      | ok conversation =>
          by_cases hmk : env.mkdirFails = true
          · have hbody : processBody env imageId st =
                (sendProcessingUpdate
                  (sendBotMessageGW stX conversation._id
                    (startedMessage image.originalFilename) .system
                    (some { imageId := some imageId, processingStatus := some "started"
                          , imageUrl := some image.imageUrl }))
                  image.userId imageId "processing"
                  "Bot: Starting Matrix code analysis using 3rd party service...",
                 some "mkdir failed") := by
              unfold processBody
              simp only [himg, hfc, hmk, eq_self_iff_true, if_true]
            have hfin : processUploadedImage env imageId st =
                catchErrorHandler imageId "mkdir failed"
                  (sendProcessingUpdate
                    (sendBotMessageGW stX conversation._id
                      (startedMessage image.originalFilename) .system
                      (some { imageId := some imageId, processingStatus := some "started"
                            , imageUrl := some image.imageUrl }))
                    image.userId imageId "processing"
                    "Bot: Starting Matrix code analysis using 3rd party service...") := by
              unfold processUploadedImage
              rw [hbody]
            have h3find : findImage
                (sendProcessingUpdate
                  (sendBotMessageGW stX conversation._id
                    (startedMessage image.originalFilename) .system
                    (some { imageId := some imageId, processingStatus := some "started"
                          , imageUrl := some image.imageUrl }))
                  image.userId imageId "processing"
                  "Bot: Starting Matrix code analysis using 3rd party service...") imageId =
                some { image with processingStatus := "processing" } :=
              (findImage_congr _ stX imageId (images_sendBotMessageGW stX _ _ _ _)).trans hXfind
            have h3log : (sendProcessingUpdate
                (sendBotMessageGW stX conversation._id
                  (startedMessage image.originalFilename) .system
                  (some { imageId := some imageId, processingStatus := some "started"
                        , imageUrl := some image.imageUrl }))
                image.userId imageId "processing"
                "Bot: Starting Matrix code analysis using 3rd party service...").statusLog =
                st.statusLog ++ [(imageId, "processing")] := by
              show (sendBotMessageGW stX conversation._id
                  (startedMessage image.originalFilename) .system
                  (some { imageId := some imageId, processingStatus := some "started"
                        , imageUrl := some image.imageUrl })).statusLog =
                st.statusLog ++ [(imageId, "processing")]
              rw [statusLog_sendBotMessageGW]
              exact hXlog
            obtain ⟨image', f1, f2, f3, f4, f5⟩ :=
              catchErrorHandler_spec imageId "mkdir failed" _ _ h3find
            refine ⟨"failed", image', by simp, ?_, ?_, f2, ?_⟩
            · rw [hfin, f4, h3log]
              simp
            · rw [hfin]
              exact f1
            · intro stB e hBe
              rw [hbody] at hBe
              simp only [Prod.mk.injEq, Option.some.injEq] at hBe
              obtain ⟨h1, h2⟩ := hBe
              subst h1
              refine ⟨rfl, f3, ?_⟩
              intro conversation2 hconv2 hcid2
              obtain ⟨conversation', g1, g2⟩ := f5 conversation2 hconv2 hcid2
              refine ⟨conversation', ?_, g2⟩
              rw [hfin]
              exact g1
          · have hmk' : env.mkdirFails = false := by
              simpa using hmk
            by_cases hsucc : env.detectorResult.success = true
            · have hbody : processBody env imageId st =
                  (sendProcessingComplete
                    (sendBotMessageGW
                      (if jsGtZero env.detectorResult.unreadableCodes then
                        sendBotMessageGW
                          (sendBotMessageGW
                            (saveImage
                              (sendProcessingUpdate
                                (sendBotMessageGW stX conversation._id
                                  (startedMessage image.originalFilename) .system
                                  (some { imageId := some imageId
                                        , processingStatus := some "started"
                                        , imageUrl := some image.imageUrl }))
                                image.userId imageId "processing"
                                "Bot: Starting Matrix code analysis using 3rd party service...")
                              { { image with processingStatus := "processing" } with
                                  detectedComponents := env.detectorResult.detectedCodes.getD []
                                , feedback := env.detectorResult.report.getD ""
                                , processingStatus :=
                                    if env.detectorResult.unreadableCodes == some 0 then
                                      "completed"
                                    else "needs_review"
                                , processedImageUrl :=
                                    if jsTruthyStr env.detectorResult.processedImagePath then
                                      env.detectorResult.processedImagePath
                                    else image.processedImageUrl })
                            conversation._id (createFeedbackMessage env.detectorResult) .feedback
                            (some { imageId := some imageId
                                  , processingStatus :=
                                      some (if env.detectorResult.unreadableCodes == some 0 then
                                              "completed"
                                            else "needs_review")
                                  , totalCodes := env.detectorResult.totalCodes
                                  , readableCodes := env.detectorResult.readableCodes
                                  , unreadableCodes := env.detectorResult.unreadableCodes
                                  , processedImageUrl := env.detectorResult.processedImagePath
                                  , detectedComponents := env.detectorResult.detectedCodes }))
                          conversation._id (createGuidanceMessage env.detectorResult) .system
                          (some { imageId := some imageId, type := some "guidance"
                                , unreadableCodes := env.detectorResult.unreadableCodes })
                      else
                        sendBotMessageGW
                          (saveImage
                            (sendProcessingUpdate
                              (sendBotMessageGW stX conversation._id
                                (startedMessage image.originalFilename) .system
                                (some { imageId := some imageId
                                      , processingStatus := some "started"
                                      , imageUrl := some image.imageUrl }))
                              image.userId imageId "processing"
                              "Bot: Starting Matrix code analysis using 3rd party service...")
                            { { image with processingStatus := "processing" } with
                                detectedComponents := env.detectorResult.detectedCodes.getD []
                              , feedback := env.detectorResult.report.getD ""
                              , processingStatus :=
                                  if env.detectorResult.unreadableCodes == some 0 then
                                    "completed"
                                  else "needs_review"
                              , processedImageUrl :=
                                  if jsTruthyStr env.detectorResult.processedImagePath then
                                    env.detectorResult.processedImagePath
                                  else image.processedImageUrl })
                          conversation._id (createFeedbackMessage env.detectorResult) .feedback
                          (some { imageId := some imageId
                                , processingStatus :=
                                    some (if env.detectorResult.unreadableCodes == some 0 then
                                            "completed"
                                          else "needs_review")
                                , totalCodes := env.detectorResult.totalCodes
                                , readableCodes := env.detectorResult.readableCodes
                                , unreadableCodes := env.detectorResult.unreadableCodes
                                , processedImageUrl := env.detectorResult.processedImagePath
                                , detectedComponents := env.detectorResult.detectedCodes }))
                      conversation._id createCircuitMessage .system
                      (some { imageId := some imageId, type := some "circuit_link"
                            , circuitUrl := some circuitSimUrl }))
                    image.userId imageId
                    (if env.detectorResult.unreadableCodes == some 0 then "completed"
                     else "needs_review")
                    (jsShowStr env.detectorResult.report), none) := by
                unfold processBody
                simp only [himg, hfc, hmk', hsucc, Bool.false_eq_true, if_false,
                  eq_self_iff_true, if_true]
              have hfin := processUploadedImage_of_none env imageId st _ hbody
              set md1 : Option MessageMetadata :=
                some { imageId := some imageId, processingStatus := some "started"
                     , imageUrl := some image.imageUrl } with hmd1
              set st3 : PipelineState := sendProcessingUpdate
                (sendBotMessageGW stX conversation._id
                  (startedMessage image.originalFilename) .system md1)
                image.userId imageId "processing"
                "Bot: Starting Matrix code analysis using 3rd party service..." with hst3
              set imageS : ImageRecord :=
                { { image with processingStatus := "processing" } with
                    detectedComponents := env.detectorResult.detectedCodes.getD []
                  , feedback := env.detectorResult.report.getD ""
                  , processingStatus :=
                      if env.detectorResult.unreadableCodes == some 0 then "completed"
                      else "needs_review"
                  , processedImageUrl :=
                      if jsTruthyStr env.detectorResult.processedImagePath then
                        env.detectorResult.processedImagePath
                      else image.processedImageUrl } with himageS
              have h3find : findImage st3 imageId =
                  some { image with processingStatus := "processing" } :=
                (findImage_congr st3 stX imageId (images_sendBotMessageGW stX _ _ _ _)).trans
                  hXfind
              have h4 : findImage (saveImage st3 imageS) imageId = some imageS :=
                findImage_saveImage_self st3 imageId _ imageS h3find rfl
              refine ⟨(if env.detectorResult.unreadableCodes == some 0 then "completed"
                       else "needs_review"), imageS, ?_, ?_, ?_, rfl, ?_⟩
              · cases hu : (env.detectorResult.unreadableCodes == some 0) <;> simp [hu]
              · rw [hfin, statusLog_sendProcessingComplete, statusLog_sendBotMessageGW,
                  statusLog_ite_sendBotMessageGW, statusLog_sendBotMessageGW,
                  statusLog_saveImage, hst3, statusLog_sendProcessingUpdate,
                  statusLog_sendBotMessageGW, hXlog, himageS]
                simp [hid]
              · rw [hfin]
                unfold findImage
                rw [images_sendProcessingComplete, images_sendBotMessageGW,
                  images_ite_sendBotMessageGW, images_sendBotMessageGW]
                unfold findImage at h4
                exact h4
              · intro stB e hBe
                rw [hbody] at hBe
                simp at hBe
            · have hfail : env.detectorResult.success = false := by
                simpa using hsucc
              have hbody : processBody env imageId st =
                  (sendProcessingComplete
                    (sendBotMessageGW
                      (saveImage
                        (sendProcessingUpdate
                          (sendBotMessageGW stX conversation._id
                            (startedMessage image.originalFilename) .system
                            (some { imageId := some imageId
                                  , processingStatus := some "started"
                                  , imageUrl := some image.imageUrl }))
                          image.userId imageId "processing"
                          "Bot: Starting Matrix code analysis using 3rd party service...")
                        { { image with processingStatus := "processing" } with
                            processingStatus := "failed"
                          , feedback :=
                              "Processing failed - " ++ jsShowStr env.detectorResult.error })
                      conversation._id (processingFailedMessage env.detectorResult.error) .system
                      (some { imageId := some imageId, processingStatus := some "failed"
                            , error := env.detectorResult.error }))
                    image.userId imageId "failed"
                    ("Processing failed - " ++ jsShowStr env.detectorResult.error), none) := by
                unfold processBody
                simp only [himg, hfc, hmk', hfail, Bool.false_eq_true, if_false]
              have hfin := processUploadedImage_of_none env imageId st _ hbody
              set md1 : Option MessageMetadata :=
                some { imageId := some imageId, processingStatus := some "started"
                     , imageUrl := some image.imageUrl } with hmd1
              set st3 : PipelineState := sendProcessingUpdate
                (sendBotMessageGW stX conversation._id
                  (startedMessage image.originalFilename) .system md1)
                image.userId imageId "processing"
                "Bot: Starting Matrix code analysis using 3rd party service..." with hst3
              set imageF : ImageRecord :=
                { { image with processingStatus := "processing" } with
                    processingStatus := "failed"
                  , feedback :=
                      "Processing failed - " ++ jsShowStr env.detectorResult.error } with himageF
              have h3find : findImage st3 imageId =
                  some { image with processingStatus := "processing" } :=
                (findImage_congr st3 stX imageId (images_sendBotMessageGW stX _ _ _ _)).trans
                  hXfind
              have h4 : findImage (saveImage st3 imageF) imageId = some imageF :=
                findImage_saveImage_self st3 imageId _ imageF h3find rfl
              refine ⟨"failed", imageF, by simp, ?_, ?_, rfl, ?_⟩
              · rw [hfin, statusLog_sendProcessingComplete, statusLog_sendBotMessageGW,
                  statusLog_saveImage, hst3, statusLog_sendProcessingUpdate,
                  statusLog_sendBotMessageGW, hXlog, himageF]
                simp [hid]
              · rw [hfin]
                unfold findImage
                rw [images_sendProcessingComplete, images_sendBotMessageGW]
                unfold findImage at h4
                exact h4
              · intro stB e hBe
                rw [hbody] at hBe
                simp at hBe

/-- C2 counterexample: instructor feedback (`addFeedback`) moves an existing
record — here one in the initial `pending` state — to the status
`"accepted"`, which lies outside the claimed lattice
`pending → processing → {completed, needs_review, failed}`. -/
theorem addFeedback_accepted_cex :
    (addFeedback exState "img1" "Great work").map
      (fun st' => (findImage st' "img1").map fun i => i.processingStatus) =
      .ok (some "accepted") ∧
    exImage.processingStatus = "pending" ∧
    ¬ ("accepted" ∈
        (["pending", "processing", "completed", "needs_review", "failed"] : List String)) := by
  refine ⟨by decide, by decide, by decide⟩

/-- C2 (amended): orchestrator runs do follow the lattice — a run on an
existing record writes exactly `processing` followed by one terminal status
among {completed, needs_review, failed} (a run on a missing record writes
nothing), and an explicit reprocess call is the same run, restarting at
`processing`.  But instructor feedback (`addFeedback`) sets the additional
status `"accepted"`, outside that set, from any current status. -/
theorem processingStatus_lattice_amended :
    (∀ (env : PipelineEnv) (imageId : String) (st : PipelineState),
      findImage st imageId = none →
      (processUploadedImage env imageId st).statusLog = st.statusLog) ∧
    (∀ (env : PipelineEnv) (imageId : String) (st : PipelineState) (image : ImageRecord),
      findImage st imageId = some image →
      ∃ t, (t = "completed" ∨ t = "needs_review" ∨ t = "failed") ∧
        (processUploadedImage env imageId st).statusLog =
          st.statusLog ++ [(imageId, "processing"), (imageId, t)]) ∧
    (∀ (env : PipelineEnv) (imageId : String) (st : PipelineState),
      reprocessImage env imageId st = processUploadedImage env imageId st) ∧
    (∀ (st : PipelineState) (fileId feedback : String) (image : ImageRecord),
      findImage st fileId = some image →
      ∃ st', addFeedback st fileId feedback = .ok st' ∧
        st'.statusLog = st.statusLog ++ [(fileId, "accepted")]) := by
  refine ⟨?_, ?_, fun env imageId st => rfl, ?_⟩
  · intro env imageId st h
    unfold processUploadedImage processBody
    simp only [h]
  · intro env imageId st image h
    obtain ⟨t, image', hdisj, hlog, _, _, _⟩ := runStatusSpec env imageId st image h
    exact ⟨t, hdisj, hlog⟩
  · intro st fileId feedback image h
    have hid : image._id = fileId := by
      unfold findImage at h
      simpa using List.find?_some h
    unfold addFeedback
    simp only [h]
    refine ⟨_, rfl, ?_⟩
    rw [statusLog_saveImage]
    simp [hid]

/-- C2 witness: feedback on the fixture record logs exactly one `accepted`
save. -/
theorem processingStatus_lattice_amended_witness :
    findImage exState "img1" = some exImage ∧
    (∃ st', addFeedback exState "img1" "looks good" = .ok st' ∧
      st'.statusLog = exState.statusLog ++ [("img1", "accepted")]) :=
  ⟨by decide,
   processingStatus_lattice_amended.2.2.2 exState "img1" "looks good" exImage (by decide)⟩

/-- C4: any unanticipated exception raised in the try body is caught at the
top level; the handler forces the record to `failed` with the generic note
and still attempts the error push (appending exactly one system error
message whenever the pair's conversation resolves); consequently no run on
an existing record terminates with the record left in `processing` — every
run ends in a terminal status. -/
theorem exception_handler_forces_failed :
    ∀ (env : PipelineEnv) (imageId : String) (st : PipelineState) (image : ImageRecord),
      findImage st imageId = some image →
      (∃ image',
        findImage (processUploadedImage env imageId st) imageId = some image' ∧
        image'.processingStatus ≠ "processing" ∧
        (image'.processingStatus = "completed" ∨ image'.processingStatus = "needs_review" ∨
         image'.processingStatus = "failed")) ∧
      (∀ (stB : PipelineState) (e : String),
        processBody env imageId st = (stB, some e) →
        (∃ image',
          findImage (processUploadedImage env imageId st) imageId = some image' ∧
          image'.processingStatus = "failed" ∧
          image'.feedback = "An unexpected error occurred during processing.") ∧
        (∀ conversation : Conversation,
          firstConvFor stB.conversations image.experimentId image.userId = some conversation →
          convById stB.conversations conversation._id = some conversation →
          ∃ conversation',
            convById (processUploadedImage env imageId st).conversations conversation._id =
              some conversation' ∧
            (conversation'.messages.drop conversation.messages.length).countP
              isErrorMessage = 1)) := by
  intro env imageId st image h
  obtain ⟨t, image', hdisj, _, hfind, hstat, herr⟩ := runStatusSpec env imageId st image h
  have hne : t ≠ "processing" := by
    rcases hdisj with rfl | rfl | rfl <;> decide
  refine ⟨⟨image', hfind, by rw [hstat]; exact hne, by rw [hstat]; exact hdisj⟩, ?_⟩
  intro stB e hBe
  obtain ⟨ht, hfb, hpush⟩ := herr stB e hBe
  exact ⟨⟨image', hfind, by rw [hstat, ht], hfb⟩, hpush⟩

/-- C4 witness: a run that raises while preparing the processed directory
still leaves the fixture record in a terminal status, not `processing`. -/
theorem exception_handler_forces_failed_witness :
    findImage exState "img1" = some exImage ∧
    (∃ image',
      findImage (processUploadedImage envCrash "img1" exState) "img1" = some image' ∧
      image'.processingStatus ≠ "processing" ∧
      (image'.processingStatus = "completed" ∨ image'.processingStatus = "needs_review" ∨
       image'.processingStatus = "failed")) :=
  ⟨by decide,
   (exception_handler_forces_failed envCrash "img1" exState exImage (by decide)).1⟩

/-- C8: joining a conversation re-validates permission server-side; a student
who is not the conversation's student party gets an `error` event, joins no
room, and the conversation store is unchanged. -/
theorem join_foreign_conversation_denied :
    ∀ (conversations : List Conversation) (conversationId : Nat)
      (client : GatewayClient) (user : GatewayUser) (conversation : Conversation),
      client.user = some user →
      user.role = .student →
      convById conversations conversationId = some conversation →
      conversation.studentId ≠ user.id →
      handleJoinConversation conversations conversationId client =
        (conversations,
          { client with emitted := client.emitted ++
              [("error", "You do not have permission to view this conversation")] }) := by
  intro convs cid client user conv hu hr hc hs
  unfold handleJoinConversation getConversationById validateViewPermission
  simp [hu, hc, hr, hs, ServiceError.message]

/-- C8 witness: student `stu2` attempts to join `stu1`'s conversation. -/
theorem join_foreign_conversation_denied_witness :
    otherStudentClient.user =
      some { id := "stu2", email := "stu2@mexle.org", role := .student } ∧
    handleJoinConversation [exConv] 7 otherStudentClient =
      ([exConv],
        { otherStudentClient with emitted :=
            [("error", "You do not have permission to view this conversation")] }) :=
  ⟨rfl,
   join_foreign_conversation_denied [exConv] 7 otherStudentClient
     { id := "stu2", email := "stu2@mexle.org", role := .student } exConv
     rfl rfl (by decide) (by decide)⟩

end Mexle
